import Mathlib

/-!
Verification of the SmartSpin2k DirCon / KICKR BIKE bridge
(`DirConMessage.h`/`.cpp`, `DirConManager.h`/`.cpp`, `BLE_KickrBikeService.h`/`.cpp`).

Bytes are modelled as `Nat` (all values below 256 on the wire); `double`
gradient arithmetic is modelled over `ℚ`; the stateful C++ objects become
explicit state records with pure transition functions.
-/

/-! ## Protocol constants (DirConMessage.h, DirConManager.h) -/

def DIRCON_MESSAGE_HEADER_LENGTH : Nat := 6

def DIRCON_CHAR_PROP_FLAG_READ : Nat := 0x01

def DIRCON_CHAR_PROP_FLAG_WRITE : Nat := 0x02

def DIRCON_CHAR_PROP_FLAG_NOTIFY : Nat := 0x04

def DIRCON_MSGID_ERROR : Nat := 0xFF

def DIRCON_MSGID_DISCOVER_SERVICES : Nat := 0x01

def DIRCON_MSGID_DISCOVER_CHARACTERISTICS : Nat := 0x02

def DIRCON_MSGID_READ_CHARACTERISTIC : Nat := 0x03

def DIRCON_MSGID_WRITE_CHARACTERISTIC : Nat := 0x04

def DIRCON_MSGID_ENABLE_CHARACTERISTIC_NOTIFICATIONS : Nat := 0x05

def DIRCON_MSGID_UNSOLICITED_CHARACTERISTIC_NOTIFICATION : Nat := 0x06

def DIRCON_RESPCODE_SUCCESS_REQUEST : Nat := 0x00

def DIRCON_RESPCODE_UNKNOWN_MESSAGE_TYPE : Nat := 0x01

def DIRCON_RESPCODE_UNEXPECTED_ERROR : Nat := 0x02

def DIRCON_RESPCODE_SERVICE_NOT_FOUND : Nat := 0x03

def DIRCON_RESPCODE_CHARACTERISTIC_NOT_FOUND : Nat := 0x04

def DIRCON_RESPCODE_CHARACTERISTIC_OPERATION_NOT_SUPPORTED : Nat := 0x05

/-- `#define DIRCON_TCP_PORT 8081` (DirConManager.h). -/
def DIRCON_TCP_PORT : Nat := 8081

def DIRCON_MAX_CLIENTS : Nat := 1

def DIRCON_MAX_CHARACTERISTICS : Nat := 10

/-- NimBLE characteristic property bits (`NIMBLE_PROPERTY`, from
`BLE_GATT_CHR_F_*`): READ `0x02`, WRITE `0x08`, NOTIFY `0x10`, INDICATE `0x20`. -/
def NIMBLE_PROPERTY_READ : Nat := 0x02

def NIMBLE_PROPERTY_WRITE : Nat := 0x08

def NIMBLE_PROPERTY_NOTIFY : Nat := 0x10

def NIMBLE_PROPERTY_INDICATE : Nat := 0x20

/-! ## UUID codec (DirConMessage.cpp `uuidToBytes` / `bytesToUuid`)

A 128-bit `NimBLEUUID` stores its value as 16 little-endian bytes.
`uuid.to128().getBase()` returns a pointer to the `ble_uuid_any_t` buffer:
byte 0 is the one-byte type tag (`BLE_UUID_TYPE_128`) and bytes 1..16 are the
16 value bytes.  We model a UUID by its 16-byte value list. -/

/-- The `ble_uuid_any_t` buffer viewed as bytes: type tag, then the value. -/
def nimbleUuidBuffer (value : List Nat) : List Nat := 128 :: value

/-- The loop `for(size_t i = 16; i > 0; i--) message.push_back(uuidBytes[i]);`
of `uuidToBytes`: `uuidToBytesLoop buffer n` pushes `buffer[n], …, buffer[1]`. -/
def uuidToBytesLoop (buffer : List Nat) : Nat → List Nat
  | 0 => []
  | i + 1 => buffer.getD (i + 1) 0 :: uuidToBytesLoop buffer i

/-- `uuidToBytes` (DirConMessage.cpp): appends the 16 UUID value bytes to the
message, starting from the buffer index 16 down to index 1 — i.e. the value
bytes in reverse order (index 0, the type tag, is skipped). -/
def uuidToBytes (value : List Nat) : List Nat :=
  uuidToBytesLoop (nimbleUuidBuffer value) 16

/-- `bytesToUuid` (DirConMessage.cpp): builds a `NimBLEUUID` from the 16 bytes
at `data + offset` and returns `reverseByteOrder()` of it. -/
def bytesToUuid (data : List Nat) (offset : Nat) : List Nat :=
  ((data.drop offset).take 16).reverse

/-! ## Service and characteristic UUID values

Stored in NimBLE order (little-endian: entry 0 is the last textual byte). -/

/-- Bluetooth base UUID `0000xxxx-0000-1000-8000-00805F9B34FB` with a 16-bit
short id, in NimBLE little-endian storage order. -/
def btBaseUuid (short : Nat) : List Nat :=
  [0xFB, 0x34, 0x9B, 0x5F, 0x80, 0x00, 0x00, 0x80, 0x00, 0x10, 0x00, 0x00,
   short % 256, short / 256 % 256, 0x00, 0x00]

def CYCLINGPOWERSERVICE_UUID : List Nat := btBaseUuid 0x1818

def CSCSERVICE_UUID : List Nat := btBaseUuid 0x1816

def HEARTSERVICE_UUID : List Nat := btBaseUuid 0x180D

def FITNESSMACHINESERVICE_UUID : List Nat := btBaseUuid 0x1826

def FITNESSMACHINECONTROLPOINT_UUID : List Nat := btBaseUuid 0x2AD9

/-- Fitness Machine Status characteristic `0x2ADA` (the UUID macro is declared
in a header outside `src/`; the value is the Bluetooth GATT assigned number,
as for the other short UUIDs). -/
def FITNESSMACHINESTATUS_UUID : List Nat := btBaseUuid 0x2ADA

/-- Fitness Machine Training Status characteristic `0x2AD3` (same provenance
as `FITNESSMACHINESTATUS_UUID`). -/
def FITNESSMACHINETRAININGSTATUS_UUID : List Nat := btBaseUuid 0x2AD3

/-- Zwift Ride service `0000FC82-0000-1000-8000-00805F9B34FB`. -/
def ZWIFT_RIDE_SERVICE_UUID : List Nat := btBaseUuid 0xFC82

/-- Sync RX characteristic `00000003-19CA-4651-86E5-FA29DCDD09D1`
(little-endian storage order). -/
def ZWIFT_SYNC_RX_UUID : List Nat :=
  [0xD1, 0x09, 0xDD, 0xDC, 0x29, 0xFA, 0xE5, 0x86,
   0x51, 0x46, 0xCA, 0x19, 0x03, 0x00, 0x00, 0x00]

/-! ## NimBLE UUID string form (used by the subscription hash) -/

/-- Lowercase hex digit, as produced by `%02x` formatting. -/
def hexDigit (n : Nat) : Char :=
  if n < 10 then Char.ofNat (48 + n) else Char.ofNat (87 + n)

def byteToHex (b : Nat) : List Char := [hexDigit (b / 16 % 16), hexDigit (b % 16)]

/-- `NimBLEUUID::toString()` of a 128-bit UUID: the 16 value bytes printed from
index 15 down to 0 as lowercase hex, dashed 8-4-4-4-12. -/
def uuidStringOf (value : List Nat) : String :=
  let hx := fun (bs : List Nat) => String.mk ((bs.map byteToHex).flatten)
  let t := value.reverse
  hx (t.take 4) ++ "-" ++ hx ((t.drop 4).take 2) ++ "-" ++ hx ((t.drop 6).take 2)
    ++ "-" ++ hx ((t.drop 8).take 2) ++ "-" ++ hx (t.drop 10)

/-! ## DirCon message (DirConMessage.h) -/

structure DirConMessage where
  MessageVersion : Nat := 1
  Identifier : Nat := DIRCON_MSGID_ERROR
  SequenceNumber : Nat := 0
  ResponseCode : Nat := DIRCON_RESPCODE_SUCCESS_REQUEST
  Length : Nat := 0
  UUID : List Nat := []
  AdditionalUUIDs : List (List Nat) := []
  AdditionalData : List Nat := []
  Request : Bool := false
deriving DecidableEq

/-- `DirConMessage::isRequest`: the argument is the session's last sequence
number, received as a C++ `int` from a `uint8_t`, so `sequenceNumber <= 0`
means `sequenceNumber = 0` here. -/
def DirConMessage.isRequest (m : DirConMessage) (sequenceNumber : Nat) : Bool :=
  m.ResponseCode == DIRCON_RESPCODE_SUCCESS_REQUEST &&
    (sequenceNumber == 0 || sequenceNumber != m.SequenceNumber)

/-- High byte of the `uint16_t` length field (`(uint8_t)(Length >> 8)`). -/
def u16hi (n : Nat) : Nat := n % 65536 / 256

/-- Low byte of the `uint16_t` length field (`(uint8_t)(Length)`). -/
def u16lo (n : Nat) : Nat := n % 256

/-- `DirConMessage::encode(sequenceNumber)`: returns the encoded bytes; an
`DIRCON_MSGID_ERROR` message encodes to the empty list (the C++ method leaves
`encodedMessage` untouched, and callers then skip the send). -/
def DirConMessage.encode (m : DirConMessage) (sequenceNumber : Nat) : List Nat :=
  if m.Identifier == DIRCON_MSGID_ERROR then []
  else
    let seq : Nat :=
      if m.Request then (if m.SequenceNumber < 255 then m.SequenceNumber + 1 else 0)
      else if m.Identifier == DIRCON_MSGID_UNSOLICITED_CHARACTERISTIC_NOTIFICATION then 0
      else sequenceNumber
    let header : List Nat := [1, m.Identifier, seq, m.ResponseCode]
    if !m.Request && m.ResponseCode != DIRCON_RESPCODE_SUCCESS_REQUEST then
      header ++ [0, 0]
    else if m.Identifier == DIRCON_MSGID_DISCOVER_SERVICES then
      if m.Request then header ++ [0, 0]
      else
        let len := m.AdditionalUUIDs.length * 16
        header ++ [u16hi len, u16lo len] ++ (m.AdditionalUUIDs.map uuidToBytes).flatten
    else if m.Identifier == DIRCON_MSGID_DISCOVER_CHARACTERISTICS && !m.Request then
      let len := 16 + m.AdditionalUUIDs.length * 17
      header ++ [u16hi len, u16lo len] ++ uuidToBytes m.UUID ++
        ((List.range m.AdditionalUUIDs.length).map
          (fun c => uuidToBytes (m.AdditionalUUIDs.getD c []) ++ [m.AdditionalData.getD c 0])).flatten
    else if ((m.Identifier == DIRCON_MSGID_READ_CHARACTERISTIC ||
              m.Identifier == DIRCON_MSGID_DISCOVER_CHARACTERISTICS) && m.Request) ||
            (m.Identifier == DIRCON_MSGID_ENABLE_CHARACTERISTIC_NOTIFICATIONS && !m.Request) then
      header ++ [u16hi 16, u16lo 16] ++ uuidToBytes m.UUID
    else if m.Identifier == DIRCON_MSGID_WRITE_CHARACTERISTIC ||
            m.Identifier == DIRCON_MSGID_UNSOLICITED_CHARACTERISTIC_NOTIFICATION ||
            (m.Identifier == DIRCON_MSGID_READ_CHARACTERISTIC && !m.Request) ||
            (m.Identifier == DIRCON_MSGID_ENABLE_CHARACTERISTIC_NOTIFICATIONS && m.Request) then
      let len := 16 + m.AdditionalData.length
      header ++ [u16hi len, u16lo len] ++ uuidToBytes m.UUID ++ m.AdditionalData
    else
      header

/-! ## GATT model

The NimBLE server's service tree, as seen through
`NimBLEDevice::getServer()->getServiceByUUID` / `getCharacteristic`. -/

structure GattChar where
  uuid : List Nat
  props : Nat
  value : List Nat
deriving DecidableEq

structure GattService where
  uuid : List Nat
  chars : List GattChar
deriving DecidableEq

def getServiceByUUID (gatt : List GattService) (uuid : List Nat) : Option GattService :=
  gatt.find? (fun s => s.uuid == uuid)

def GattService.getCharacteristic (s : GattService) (uuid : List Nat) : Option GattChar :=
  s.chars.find? (fun c => c.uuid == uuid)

/-- `DirConManager::getAvailableServices` (DirConManager.cpp 568-592): the
cached list built once, in push order — Cycling Power, CSC, Heart Rate, FTMS. -/
def getAvailableServices : List (List Nat) :=
  [CYCLINGPOWERSERVICE_UUID, CSCSERVICE_UUID, HEARTSERVICE_UUID, FITNESSMACHINESERVICE_UUID]

/-- `DirConManager::findCharacteristic`: scan the available services in order,
look each up in the server, return the first matching characteristic. -/
def findCharacteristic (gatt : List GattService) (characteristicUuid : List Nat) : Option GattChar :=
  getAvailableServices.findSome? (fun serviceUuid =>
    match getServiceByUUID gatt serviceUuid with
    | none => none
    | some s => s.getCharacteristic characteristicUuid)

/-- `DirConManager::getDirConProperties` (DirConManager.cpp 652-668): maps the
NimBLE READ/WRITE/NOTIFY bits; INDICATE is not mapped. -/
def getDirConProperties (characteristicProperties : Nat) : Nat :=
  (if characteristicProperties &&& NIMBLE_PROPERTY_READ != 0 then DIRCON_CHAR_PROP_FLAG_READ else 0) |||
  (if characteristicProperties &&& NIMBLE_PROPERTY_WRITE != 0 then DIRCON_CHAR_PROP_FLAG_WRITE else 0) |||
  (if characteristicProperties &&& NIMBLE_PROPERTY_NOTIFY != 0 then DIRCON_CHAR_PROP_FLAG_NOTIFY else 0)

/-! ## Parsing (DirConMessage.cpp `DirConMessage::parse`) -/

/-- The `while (Length >= index + 17)` loop of the discover-characteristics
response branch of `parse`.  The source fetches the (live) service each
iteration, appends every characteristic UUID of it and advances the index by
each UUID's `toString().length()`; when the service is missing the source
dereferences a null pointer, and when the increment is zero the source loop
does not terminate — we bound it with fuel and treat a missing service as
contributing nothing.  This branch never yields a request (`Request` stays
`false`), so no dispatch depends on it. -/
def discoverCharsRespLoop (gatt : List GattService) (serviceUuid : List Nat)
    (lengthField : Nat) : Nat → Nat → Nat → List (List Nat) × Nat
  | 0, _, parsed => ([], parsed)
  | fuel + 1, index, parsed =>
    if index + 17 ≤ lengthField then
      let chars := match getServiceByUUID gatt serviceUuid with
        | some s => s.chars
        | none => []
      let step := (chars.map (fun c => (uuidStringOf c.uuid).length)).sum
      let (rest, parsedOut) :=
        discoverCharsRespLoop gatt serviceUuid lengthField fuel (index + step) (parsed + step)
      (chars.map (fun c => c.uuid) ++ rest, parsedOut)
    else ([], parsed)

/-- The `switch (this->Identifier)` of `DirConMessage::parse`, taking the
already-parsed header fields in `m0`. -/
def parseSwitch (gatt : List GattService) (m0 : DirConMessage) (data : List Nat)
    (sequenceNumber : Nat) : DirConMessage × Nat :=
  if m0.Identifier == DIRCON_MSGID_DISCOVER_SERVICES then
    if m0.Length == 0 then ({ m0 with Request := m0.isRequest sequenceNumber }, 6)
    else if m0.Length % 16 == 0 then
      ({ m0 with AdditionalUUIDs :=
          (List.range (m0.Length / 16)).map (fun k => bytesToUuid data (6 + 16 * k)) },
       6 + m0.Length)
    else ({ m0 with Identifier := DIRCON_MSGID_ERROR }, 0)
  else if m0.Identifier == DIRCON_MSGID_DISCOVER_CHARACTERISTICS then
    if 16 ≤ m0.Length then
      let m1 := { m0 with UUID := bytesToUuid data 6 }
      if m0.Length == 16 then ({ m1 with Request := m1.isRequest sequenceNumber }, 22)
      else if (m0.Length - 16) % 17 == 0 then
        let lp := discoverCharsRespLoop gatt m1.UUID m0.Length (m0.Length + 1) 16 22
        ({ m1 with AdditionalUUIDs := lp.1 }, lp.2)
      else (m1, 22)
    else ({ m0 with Identifier := DIRCON_MSGID_ERROR }, 0)
  else if m0.Identifier == DIRCON_MSGID_READ_CHARACTERISTIC then
    if 16 ≤ m0.Length then
      let m1 := { m0 with UUID := bytesToUuid data 6 }
      if m0.Length == 16 then ({ m1 with Request := m1.isRequest sequenceNumber }, 22)
      else ({ m1 with AdditionalData := (data.drop 22).take (m0.Length - 16) }, 6 + m0.Length)
    else ({ m0 with Identifier := DIRCON_MSGID_ERROR }, 0)
  else if m0.Identifier == DIRCON_MSGID_WRITE_CHARACTERISTIC then
    if 16 < m0.Length then
      ({ m0 with UUID := bytesToUuid data 6
                 Request := m0.isRequest sequenceNumber
                 AdditionalData := (data.drop 22).take (m0.Length - 16) },
       6 + m0.Length)
    else ({ m0 with Identifier := DIRCON_MSGID_ERROR }, 0)
  else if m0.Identifier == DIRCON_MSGID_ENABLE_CHARACTERISTIC_NOTIFICATIONS then
    if 16 ≤ m0.Length then
      let m1 := { m0 with UUID := bytesToUuid data 6 }
      if 0 < m0.Length - 16 then
        ({ m1 with Request := true
                   AdditionalData := (data.drop 22).take (m0.Length - 16) },
         6 + m0.Length)
      else ({ m1 with Request := m1.isRequest sequenceNumber }, 22)
    else ({ m0 with Identifier := DIRCON_MSGID_ERROR }, 0)
  else if m0.Identifier == DIRCON_MSGID_UNSOLICITED_CHARACTERISTIC_NOTIFICATION then
    if 16 < m0.Length then
      ({ m0 with UUID := bytesToUuid data 6
                 AdditionalData := (data.drop 22).take (m0.Length - 16) },
       6 + m0.Length)
    else ({ m0 with Identifier := DIRCON_MSGID_ERROR }, 0)
  else ({ m0 with Identifier := DIRCON_MSGID_ERROR }, 0)

/-- `DirConMessage::parse(data, len, sequenceNumber)`: returns the parsed
message and the number of consumed bytes (0 on error, with the message\'s
`Identifier` forced to `DIRCON_MSGID_ERROR`). -/
def DirConMessage.parse (gatt : List GattService) (data : List Nat)
    (sequenceNumber : Nat) : DirConMessage × Nat :=
  if data.length < DIRCON_MESSAGE_HEADER_LENGTH then
    ({ Identifier := DIRCON_MSGID_ERROR }, 0)
  else
    let m0 : DirConMessage :=
      { MessageVersion := data.getD 0 0
        Identifier := data.getD 1 0
        SequenceNumber := data.getD 2 0
        ResponseCode := data.getD 3 0
        Length := data.getD 4 0 * 256 + data.getD 5 0
        UUID := []
        AdditionalUUIDs := []
        AdditionalData := []
        Request := false }
    if data.length - DIRCON_MESSAGE_HEADER_LENGTH < m0.Length then
      ({ m0 with Identifier := DIRCON_MSGID_ERROR }, 0)
    else parseSwitch gatt m0 data sequenceNumber

/-! ## Dispatch (DirConManager.cpp `processDirConMessage` and friends) -/

structure ClientState where
  lastSequenceNumber : Nat := 0
  clientSubscriptions : List Bool := List.replicate DIRCON_MAX_CHARACTERISTICS false
deriving DecidableEq

/-- `DirConManager::charSubscriptionIndex`: djb2-style hash of the
characteristic UUID's string form (`uint32_t` wraparound,
`hash = ((hash << 5) + hash) + c`) reduced mod `DIRCON_MAX_CHARACTERISTICS`. -/
def charSubscriptionIndex (characteristicUuid : List Nat) : Nat :=
  ((uuidStringOf characteristicUuid).toList.foldl
    (fun hash c => (hash * 32 + hash + c.toNat) % 4294967296) 0) % DIRCON_MAX_CHARACTERISTICS

/-- `DirConManager::addSubscription` for one client's subscription row. -/
def addSubscription (subs : List Bool) (characteristicUuid : List Nat) : List Bool :=
  subs.set (charSubscriptionIndex characteristicUuid) true

/-- `DirConManager::removeSubscription` for one client's subscription row. -/
def removeSubscription (subs : List Bool) (characteristicUuid : List Nat) : List Bool :=
  subs.set (charSubscriptionIndex characteristicUuid) false

/-- `DirConManager::hasSubscription` for one client's subscription row. -/
def hasSubscription (subs : List Bool) (characteristicUuid : List Nat) : Bool :=
  subs.getD (charSubscriptionIndex characteristicUuid) false

/-- `DirConManager::sendResponse`: encode with the session's last sequence
number; nothing is written when the encoded message is empty. -/
def sendResponse (cs : ClientState) (m : DirConMessage) : List (List Nat) :=
  let bytes := m.encode cs.lastSequenceNumber
  if bytes.isEmpty then [] else [bytes]

/-- `DirConManager::sendErrorResponse`. -/
def sendErrorResponse (cs : ClientState) (messageId seqNum errorCode : Nat) : List (List Nat) :=
  sendResponse cs
    { Request := false, Identifier := messageId, SequenceNumber := seqNum, ResponseCode := errorCode }

/-- `setValue` on the characteristic found by `findCharacteristic`
(characteristic UUIDs are unique in the tree, so updating by UUID matches the
source's mutation of the single found object). -/
def setCharacteristicValue (gatt : List GattService) (uuid v : List Nat) : List GattService :=
  gatt.map (fun s =>
    { s with chars := s.chars.map (fun c => if c.uuid == uuid then { c with value := v } else c) })

/-- `getValue()` of the characteristic found by `findCharacteristic` (empty
when absent, as a freshly created NimBLE characteristic's value is). -/
def getCharacteristicValue (gatt : List GattService) (uuid : List Nat) : List Nat :=
  match findCharacteristic gatt uuid with
  | some c => c.value
  | none => []

/-! ## FTMS control point handler
(`BLE_Fitness_Machine_Service::processFTMSWrite`, src/unnamed/part_003)

The FTMS op-code and status enumerators (`FitnessMachineControlPointProcedure`,
`FitnessMachineControlPointResultCode`, `FitnessMachineStatus`,
`FitnessMachineTrainingStatus`) are declared in a header outside `src/`; their
values below are the Bluetooth FTMS specification values the declaration
follows. -/

def FTMS_RequestControl : Nat := 0x00
def FTMS_Reset : Nat := 0x01
def FTMS_SetTargetInclination : Nat := 0x03
def FTMS_SetTargetResistanceLevel : Nat := 0x04
def FTMS_SetTargetPower : Nat := 0x05
def FTMS_StartOrResume : Nat := 0x07
def FTMS_StopOrPause : Nat := 0x08
def FTMS_SetIndoorBikeSimulationParameters : Nat := 0x11
def FTMS_SpinDownControl : Nat := 0x13
def FTMS_SetTargetedCadence : Nat := 0x14
def FTMS_ResponseCode : Nat := 0x80
def FTMS_Success : Nat := 0x01
def FTMS_OpCodeNotSupported : Nat := 0x02
def FTMS_InvalidParameter : Nat := 0x03
def FTMS_Status_ReservedForFutureUse : Nat := 0x00
def FTMS_Status_Reset : Nat := 0x01
def FTMS_Status_StoppedOrPausedByUser : Nat := 0x02
def FTMS_Status_StartedOrResumedByUser : Nat := 0x04
def FTMS_Status_TargetInclineChanged : Nat := 0x06
def FTMS_Status_TargetResistanceLevelChanged : Nat := 0x07
def FTMS_Status_TargetPowerChanged : Nat := 0x08
def FTMS_Status_IndoorBikeSimulationParametersChanged : Nat := 0x12
def FTMS_Status_SpinDownStatus : Nat := 0x14
def FTMS_Status_SpinDownRequested : Nat := 0x01
def FTMS_Status_TargetedCadenceChanged : Nat := 0x15
def FTMS_Training_Other : Nat := 0x00
def FTMS_Training_Idle : Nat := 0x01
def FTMS_Training_WarmingUp : Nat := 0x02
def FTMS_Training_WattControl : Nat := 0x0C
def FTMS_Training_ManualMode : Nat := 0x0D

/-- The externals `processFTMSWrite` reads: `rtConfig->getMinResistance()` /
`getMaxResistance()` and the power-source test
`spinBLEClient.connectedPM || rtConfig->watts.getSimulate() ||
spinBLEClient.connectedCD`.  Free parameters of the model; the defaults are
arbitrary (no theorem depends on them). -/
structure FtmsEnv where
  minResistance : Int := 0
  maxResistance : Int := 100
  hasPowerSource : Bool := false
deriving DecidableEq

/-- ESP32 `char` is signed: a `std::string` byte read back through `char`
sign-extends values ≥ 0x80. -/
def cppCharToInt (b : Nat) : Int :=
  if b % 256 < 128 then (b % 256 : Int) else (b % 256 : Int) - 256

/-- 32-bit two's-complement bit pattern of an `int`. -/
def u32OfInt (x : Int) : Nat := (x % 4294967296).toNat

/-- `(int16_t)((hi << 8) | lo)` where `hi` and `lo` are read through signed
`char` (so a low byte ≥ 0x80 sign-extends over the high bits before the OR). -/
def int16FromCharPair (lo hi : Nat) : Int :=
  let low16 := (u32OfInt (cppCharToInt hi * 256) ||| u32OfInt (cppCharToInt lo)) % 65536
  if low16 < 32768 then (low16 : Int) else (low16 : Int) - 65536

/-- `(uint8_t)(x & 0xff)` of a signed integer. -/
def loByteOfInt (x : Int) : Nat := (x % 256).toNat

/-- `(uint8_t)(x >> 8)` of a signed integer (arithmetic shift, then low
byte). -/
def hiByteOfInt (x : Int) : Nat := ((x.fdiv 256) % 256).toNat

/-- `rtConfig->resistance.getTarget()` read back into `int16_t`. -/
def int16Trunc (x : Int) : Int :=
  let low16 := (x % 65536).toNat
  if low16 < 32768 then (low16 : Int) else (low16 : Int) - 65536

/-- `DirConManager::notifyCharacteristic` followed by
`broadcastNotification`, restricted to one connected client: when the
characteristic exists in the tree, the UNSOLICITED_CHARACTERISTIC_NOTIFICATION
frame (encoded with sequence number 0) is written to the client's socket iff
the client holds a subscription for the characteristic's hash bucket. -/
def notifyDirConClient (gatt : List GattService) (subs : List Bool)
    (characteristicUuid data : List Nat) : List (List Nat) :=
  match findCharacteristic gatt characteristicUuid with
  | none => []
  | some _ =>
    let bytes := DirConMessage.encode
      { Request := false, Identifier := DIRCON_MSGID_UNSOLICITED_CHARACTERISTIC_NOTIFICATION,
        UUID := characteristicUuid, AdditionalData := data } 0
    if bytes.isEmpty then []
    else if hasSubscription subs characteristicUuid then [bytes] else []

structure FtmsWriteResult where
  gatt : List GattService
  broadcasts : List (List Nat)
deriving DecidableEq

/-- `BLE_Fitness_Machine_Service::processFTMSWrite` for the single cache entry
the DirCon write branch just pushed (the loop drains a one-element queue
there).  `returnValue` starts as `[ResponseCode, opcode, OpCodeNotSupported]`
and the switch upgrades the result byte per op code; afterwards the control
point value is overwritten with `returnValue` and the training-status /
machine-status characteristics are updated when their bytes changed, each
update and the final control-point response being broadcast to subscribed
DirCon clients.  Side effects on collaborator state (`rtConfig` targets, the
KICKR gear service, `spinBLEClient` forwarding) fall outside this structure;
the `rxValue.length() >= 1` else-branch is unreachable after the empty-string
early return and is therefore not modelled. -/
def processFTMSWrite (env : FtmsEnv) (gatt : List GattService) (subs : List Bool)
    (rxValue : List Nat) : FtmsWriteResult :=
  if rxValue.isEmpty then ⟨gatt, []⟩
  else
    let op := rxValue.getD 0 0 % 256
    let rv0 : List Nat := [FTMS_ResponseCode, op, FTMS_OpCodeNotSupported]
    let st0 : List Nat := [FTMS_Status_ReservedForFutureUse]
    let ts0 : List Nat := [0x00, FTMS_Training_Other]
    let branch : List Nat × List Nat × List Nat :=
      if op == FTMS_RequestControl then
        ([FTMS_ResponseCode, op, FTMS_Success], st0, ts0)
      else if op == FTMS_Reset then
        ([FTMS_ResponseCode, op, FTMS_Success], [FTMS_Status_Reset], [0x00, FTMS_Training_Idle])
      else if op == FTMS_SetTargetInclination then
        ([FTMS_ResponseCode, op, FTMS_Success],
         [FTMS_Status_TargetInclineChanged, rxValue.getD 1 0 % 256, rxValue.getD 2 0 % 256],
         [0x00, FTMS_Training_ManualMode])
      else if op == FTMS_SetTargetResistanceLevel then
        let requested := int16FromCharPair (rxValue.getD 1 0) (rxValue.getD 2 0)
        let inRange := env.minResistance ≤ requested ∧ requested ≤ env.maxResistance
        let target := int16Trunc (if inRange then requested
          else if requested > env.maxResistance then env.maxResistance else env.minResistance)
        ([FTMS_ResponseCode, op, if inRange then FTMS_Success else FTMS_InvalidParameter],
         [FTMS_Status_TargetResistanceLevelChanged, loByteOfInt target, hiByteOfInt target],
         [0x00, FTMS_Training_ManualMode])
      else if op == FTMS_SetTargetPower then
        if env.hasPowerSource then
          ([FTMS_ResponseCode, op, FTMS_Success],
           [FTMS_Status_TargetPowerChanged, rxValue.getD 1 0 % 256, rxValue.getD 2 0 % 256],
           [0x00, FTMS_Training_WattControl])
        else
          ([FTMS_ResponseCode, op, FTMS_OpCodeNotSupported], st0, ts0)
      else if op == FTMS_StartOrResume then
        ([FTMS_ResponseCode, op, FTMS_Success],
         [FTMS_Status_StartedOrResumedByUser], [0x00, FTMS_Training_WarmingUp])
      else if op == FTMS_StopOrPause then
        let controlParam := if 1 < rxValue.length then rxValue.getD 1 0 % 256 else 0x01
        let ts :=
          if controlParam == 0x01 then [0x00, FTMS_Training_Idle]
          else if controlParam == 0x02 then
            getCharacteristicValue gatt FITNESSMACHINETRAININGSTATUS_UUID
          else ts0
        ([FTMS_ResponseCode, op, FTMS_Success],
         [FTMS_Status_StoppedOrPausedByUser, controlParam], ts)
      else if op == FTMS_SetIndoorBikeSimulationParameters then
        ([FTMS_ResponseCode, op, FTMS_Success],
         [FTMS_Status_IndoorBikeSimulationParametersChanged, rxValue.getD 1 0 % 256,
          rxValue.getD 2 0 % 256, rxValue.getD 3 0 % 256, rxValue.getD 4 0 % 256,
          rxValue.getD 5 0 % 256, rxValue.getD 6 0 % 256],
         [0x00, FTMS_Training_ManualMode])
      else if op == FTMS_SpinDownControl then
        ([FTMS_ResponseCode, op, FTMS_Success, 0x20, 0x03, 0x60, 0x09],
         [FTMS_Status_SpinDownStatus, FTMS_Status_SpinDownRequested],
         [0x00, FTMS_Training_Other])
      else if op == FTMS_SetTargetedCadence then
        ([FTMS_ResponseCode, op, FTMS_Success],
         [FTMS_Status_TargetedCadenceChanged, rxValue.getD 1 0 % 256, rxValue.getD 2 0 % 256],
         [0x00, FTMS_Training_ManualMode])
      else (rv0, st0, ts0)
    let returnValue := branch.1
    let ftmsStatus := branch.2.1
    let ftmsTrainingStatus := branch.2.2
    let g1 := setCharacteristicValue gatt FITNESSMACHINECONTROLPOINT_UUID returnValue
    let tsChanged :=
      getCharacteristicValue g1 FITNESSMACHINETRAININGSTATUS_UUID ≠ ftmsTrainingStatus
    let g2 := if tsChanged then
        setCharacteristicValue g1 FITNESSMACHINETRAININGSTATUS_UUID ftmsTrainingStatus
      else g1
    let bTs := if tsChanged then
        notifyDirConClient g2 subs FITNESSMACHINETRAININGSTATUS_UUID ftmsTrainingStatus
      else []
    let stChanged := getCharacteristicValue g2 FITNESSMACHINESTATUS_UUID ≠ ftmsStatus
    let g3 := if stChanged then
        setCharacteristicValue g2 FITNESSMACHINESTATUS_UUID ftmsStatus
      else g2
    let bSt := if stChanged then
        notifyDirConClient g3 subs FITNESSMACHINESTATUS_UUID ftmsStatus
      else []
    let bCp := notifyDirConClient g3 subs FITNESSMACHINECONTROLPOINT_UUID returnValue
    ⟨g3, bTs ++ bSt ++ bCp⟩

/-- `outputs` holds the frames written through `sendResponse`; `broadcasts`
the frames written through `broadcastNotification` during the dispatch (for an
FTMS control-point write those reach the socket before the acknowledgement). -/
structure DispatchResult where
  gatt : List GattService
  client : ClientState
  outputs : List (List Nat)
  broadcasts : List (List Nat)
deriving DecidableEq

/-- `DirConManager::processDirConMessage(message, clientIndex)` — requests
only; responses fall through.  A write to the FTMS control point pushes the
just-written value into the write cache, runs `processFTMSWrite()`, and only
then sets `response.AdditionalData = characteristic->getValue()` — i.e. the
echoed body is the FTMS response bytes that `processFTMSWrite` stored into the
control point, not the bytes the client wrote. -/
def processDirConMessage (env : FtmsEnv) (gatt : List GattService) (cs : ClientState)
    (message : DirConMessage) : DispatchResult :=
  if !message.Request then ⟨gatt, cs, [], []⟩
  else if message.Identifier == DIRCON_MSGID_DISCOVER_SERVICES then
    let response : DirConMessage :=
      { Request := false, SequenceNumber := message.SequenceNumber,
        Identifier := DIRCON_MSGID_DISCOVER_SERVICES,
        ResponseCode := DIRCON_RESPCODE_SUCCESS_REQUEST,
        AdditionalUUIDs := getAvailableServices }
    ⟨gatt, cs, sendResponse cs response, []⟩
  else if message.Identifier == DIRCON_MSGID_DISCOVER_CHARACTERISTICS then
    match getServiceByUUID gatt message.UUID with
    | none =>
      ⟨gatt, cs, sendErrorResponse cs DIRCON_MSGID_DISCOVER_CHARACTERISTICS
        message.SequenceNumber DIRCON_RESPCODE_SERVICE_NOT_FOUND, []⟩
    | some service =>
      let response : DirConMessage :=
        { Request := false, SequenceNumber := message.SequenceNumber,
          Identifier := DIRCON_MSGID_DISCOVER_CHARACTERISTICS,
          ResponseCode := DIRCON_RESPCODE_SUCCESS_REQUEST,
          UUID := message.UUID,
          AdditionalUUIDs := service.chars.map (fun c => c.uuid),
          AdditionalData := service.chars.map (fun c => getDirConProperties c.props) }
      ⟨gatt, cs, sendResponse cs response, []⟩
  else if message.Identifier == DIRCON_MSGID_READ_CHARACTERISTIC then
    match findCharacteristic gatt message.UUID with
    | none =>
      ⟨gatt, cs, sendErrorResponse cs DIRCON_MSGID_READ_CHARACTERISTIC
        message.SequenceNumber DIRCON_RESPCODE_CHARACTERISTIC_NOT_FOUND, []⟩
    | some c =>
      if c.props &&& NIMBLE_PROPERTY_READ == 0 then
        ⟨gatt, cs, sendErrorResponse cs DIRCON_MSGID_READ_CHARACTERISTIC
          message.SequenceNumber DIRCON_RESPCODE_CHARACTERISTIC_OPERATION_NOT_SUPPORTED, []⟩
      else
        let response : DirConMessage :=
          { Request := false, SequenceNumber := message.SequenceNumber,
            Identifier := DIRCON_MSGID_READ_CHARACTERISTIC,
            ResponseCode := DIRCON_RESPCODE_SUCCESS_REQUEST,
            UUID := message.UUID, AdditionalData := c.value }
        ⟨gatt, cs, sendResponse cs response, []⟩
  else if message.Identifier == DIRCON_MSGID_WRITE_CHARACTERISTIC then
    match findCharacteristic gatt message.UUID with
    | none =>
      ⟨gatt, cs, sendErrorResponse cs DIRCON_MSGID_WRITE_CHARACTERISTIC
        message.SequenceNumber DIRCON_RESPCODE_CHARACTERISTIC_NOT_FOUND, []⟩
    | some c =>
      if c.props &&& NIMBLE_PROPERTY_WRITE == 0 then
        ⟨gatt, cs, sendErrorResponse cs DIRCON_MSGID_WRITE_CHARACTERISTIC
          message.SequenceNumber DIRCON_RESPCODE_CHARACTERISTIC_OPERATION_NOT_SUPPORTED, []⟩
      else
        let gattW := setCharacteristicValue gatt c.uuid message.AdditionalData
        if c.uuid == FITNESSMACHINECONTROLPOINT_UUID then
          let f := processFTMSWrite env gattW cs.clientSubscriptions message.AdditionalData
          let response : DirConMessage :=
            { Request := false, SequenceNumber := message.SequenceNumber,
              Identifier := DIRCON_MSGID_WRITE_CHARACTERISTIC,
              ResponseCode := DIRCON_RESPCODE_SUCCESS_REQUEST,
              UUID := message.UUID,
              AdditionalData :=
                getCharacteristicValue f.gatt FITNESSMACHINECONTROLPOINT_UUID }
          ⟨f.gatt, cs, sendResponse cs response, f.broadcasts⟩
        else
          let response : DirConMessage :=
            { Request := false, SequenceNumber := message.SequenceNumber,
              Identifier := DIRCON_MSGID_WRITE_CHARACTERISTIC,
              ResponseCode := DIRCON_RESPCODE_SUCCESS_REQUEST,
              UUID := message.UUID, AdditionalData := [] }
          ⟨gattW, cs, sendResponse cs response, []⟩
  else if message.Identifier == DIRCON_MSGID_ENABLE_CHARACTERISTIC_NOTIFICATIONS then
    match findCharacteristic gatt message.UUID with
    | none =>
      ⟨gatt, cs, sendErrorResponse cs DIRCON_MSGID_ENABLE_CHARACTERISTIC_NOTIFICATIONS
        message.SequenceNumber DIRCON_RESPCODE_CHARACTERISTIC_NOT_FOUND, []⟩
    | some c =>
      if c.props &&& NIMBLE_PROPERTY_NOTIFY == 0 then
        ⟨gatt, cs, sendErrorResponse cs DIRCON_MSGID_ENABLE_CHARACTERISTIC_NOTIFICATIONS
          message.SequenceNumber DIRCON_RESPCODE_CHARACTERISTIC_OPERATION_NOT_SUPPORTED, []⟩
      else
        let enableFlag := message.AdditionalData.getD 0 0 != 0
        let subs :=
          if enableFlag then addSubscription cs.clientSubscriptions message.UUID
          else removeSubscription cs.clientSubscriptions message.UUID
        let response : DirConMessage :=
          { Request := false, SequenceNumber := message.SequenceNumber,
            Identifier := DIRCON_MSGID_ENABLE_CHARACTERISTIC_NOTIFICATIONS,
            ResponseCode := DIRCON_RESPCODE_SUCCESS_REQUEST,
            UUID := message.UUID }
        ⟨gatt, { cs with clientSubscriptions := subs }, sendResponse cs response, []⟩
  else
    ⟨gatt, cs, sendErrorResponse cs message.Identifier message.SequenceNumber
      DIRCON_RESPCODE_UNKNOWN_MESSAGE_TYPE, []⟩

/-! ## Session receive loop (DirConManager.cpp `handleClientData`, 264-293) -/

structure SessionResult where
  gatt : List GattService
  client : ClientState
  requests : List DirConMessage
  outputs : List (List Nat)
  broadcasts : List (List Nat)
  leftover : List Nat
deriving DecidableEq

/-- The `while (processedBytes < receiveBufferLength)` loop: parse a message
from the remaining buffer; stop when `parse` consumed nothing; otherwise, for
non-error messages record the sequence number and dispatch, then continue on
the remaining bytes.  `requests` collects the dispatched request messages in
arrival order, `outputs` the `sendResponse` frames in emission order,
`broadcasts` the `broadcastNotification` frames in emission order, `leftover`
the bytes still in the receive buffer afterwards. -/
def processBuffer (env : FtmsEnv) (gatt : List GattService) (cs : ClientState)
    (buf : List Nat) : Nat → SessionResult
  | 0 => ⟨gatt, cs, [], [], [], buf⟩
  | fuel + 1 =>
    if buf.isEmpty then ⟨gatt, cs, [], [], [], buf⟩
    else
      let pr := DirConMessage.parse gatt buf cs.lastSequenceNumber
      if pr.2 == 0 then ⟨gatt, cs, [], [], [], buf⟩
      else if pr.1.Identifier != DIRCON_MSGID_ERROR then
        let message := pr.1
        let csIn := { cs with lastSequenceNumber := message.SequenceNumber }
        let d := processDirConMessage env gatt csIn message
        let rest := processBuffer env d.gatt d.client (buf.drop pr.2) fuel
        ⟨rest.gatt, rest.client,
         (if message.Request then [message] else []) ++ rest.requests,
         d.outputs ++ rest.outputs, d.broadcasts ++ rest.broadcasts, rest.leftover⟩
      else
        processBuffer env gatt cs (buf.drop pr.2) fuel

/-- One `handleClientData` pass over a session's receive buffer. -/
def handleClientData (env : FtmsEnv) (gatt : List GattService) (cs : ClientState)
    (buf : List Nat) : SessionResult :=
  processBuffer env gatt cs buf buf.length

/-! ## DirCon manager startup (DirConManager.cpp `start`/`setupMDNS`) -/

structure DirConStartState where
  mdnsServicePort : Nat
  tcpServerPort : Nat
deriving DecidableEq

/-- `DirConManager::start`: `setupMDNS()` announces the service on
`DIRCON_TCP_PORT` (`MDNS.addService(..., DIRCON_TCP_PORT)`) and the TCP server
is created as `new WiFiServer(DIRCON_TCP_PORT)`. -/
def DirConManager_start : DirConStartState :=
  { mdnsServicePort := DIRCON_TCP_PORT, tcpServerPort := DIRCON_TCP_PORT }

/-! ## KICKR BIKE service (BLE_KickrBikeService.h/.cpp)

`double` state is modelled over `ℚ`; `millis()` instants are passed in as
explicit `Nat` arguments. -/

def KICKR_BIKE_NUM_GEARS : Nat := 24

/-- Middle gear (0-indexed). -/
def KICKR_BIKE_DEFAULT_GEAR : Int := 11

/-- The 24-entry gear ratio table. -/
def gearRatios : List ℚ :=
  [0.50, 0.55, 0.60, 0.65, 0.70, 0.75, 0.80, 0.85,
   0.90, 0.95, 1.00, 1.05, 1.10, 1.15, 1.20, 1.25,
   1.30, 1.35, 1.40, 1.45, 1.50, 1.55, 1.60, 1.65]

structure KickrState where
  currentGear : Int := KICKR_BIKE_DEFAULT_GEAR
  baseGradient : ℚ := 0
  effectiveGradient : ℚ := 0
  targetPower : Int := 0
  isHandshakeComplete : Bool := false
  isEnabled : Bool := false
  lastKeepAliveTime : Nat := 0
  lastGradientUpdateTime : Nat := 0
  targetIncline : Int := 0
deriving DecidableEq

/-- `BLE_KickrBikeService::getCurrentGearRatio`. -/
def gearRatioAt (currentGear : Int) : ℚ :=
  if 0 ≤ currentGear ∧ currentGear < 24 then gearRatios.getD currentGear.toNat 0 else 1.0

/-- `BLE_KickrBikeService::calculateEffectiveGrade`. -/
def calculateEffectiveGrade (baseGrade gearRatioArg : ℚ) : ℚ := baseGrade * gearRatioArg

/-- C++ `static_cast<int>` on a `double`: truncation toward zero. -/
def cppIntCast (q : ℚ) : Int := if 0 ≤ q then ⌊q⌋ else ⌈q⌉

/-- `BLE_KickrBikeService::applyGradientToTrainer`: 100 ms debounce, clamp to
±20 %, convert to 0.01 % units and store via `rtConfig->setTargetIncline`. -/
def applyGradientToTrainer (s : KickrState) (now : Nat) : KickrState :=
  if now - s.lastGradientUpdateTime < 100 then s
  else
    let c1 : ℚ := if s.effectiveGradient < -20 then -20 else s.effectiveGradient
    let clampedGradient : ℚ := if c1 > 20 then 20 else c1
    { s with lastGradientUpdateTime := now,
             targetIncline := cppIntCast (clampedGradient * 100) }

inductive BleNotify where
  | syncTx (payload : List Nat)
  | asyncTx (payload : List Nat)
deriving DecidableEq

/-- `BLE_KickrBikeService::applyGearChange`: recompute the effective gradient,
apply to the trainer when enabled, and notify the two-byte gear status on
Async TX. -/
def applyGearChange (s : KickrState) (now : Nat) : KickrState × List BleNotify :=
  let s1 := { s with effectiveGradient :=
    calculateEffectiveGrade s.baseGradient (gearRatioAt s.currentGear) }
  let s2 := if s1.isEnabled then applyGradientToTrainer s1 now else s1
  let gearStatus : List Nat :=
    [(s2.currentGear + 1).toNat % 256,
     (cppIntCast (gearRatioAt s2.currentGear * 100)).toNat % 256]
  (s2, [BleNotify.asyncTx gearStatus])

/-- `BLE_KickrBikeService::shiftUp`. -/
def shiftUp (s : KickrState) (now : Nat) : KickrState × List BleNotify :=
  if s.currentGear < 24 - 1 then applyGearChange { s with currentGear := s.currentGear + 1 } now
  else (s, [])

/-- `BLE_KickrBikeService::shiftDown`. -/
def shiftDown (s : KickrState) (now : Nat) : KickrState × List BleNotify :=
  if s.currentGear > 0 then applyGearChange { s with currentGear := s.currentGear - 1 } now
  else (s, [])

/-- `BLE_KickrBikeService::setBaseGradient`. -/
def setBaseGradient (s : KickrState) (now : Nat) (gradientPercent : ℚ) : KickrState :=
  let s1 := { s with baseGradient := gradientPercent }
  let s2 := { s1 with effectiveGradient :=
    calculateEffectiveGrade s1.baseGradient (gearRatioAt s1.currentGear) }
  if s2.isEnabled then applyGradientToTrainer s2 now else s2

/-- The public mutators of the gear/gradient state:
`setBaseGradient`, `shiftUp`, `shiftDown`, and the service toggles
`enable()` / `disable()`. -/
inductive KickrOp where
  | setBase (now : Nat) (g : ℚ)
  | gearUp (now : Nat)
  | gearDown (now : Nat)
  | enable
  | disable

def runKickrOp (s : KickrState) : KickrOp → KickrState
  | .setBase now g => setBaseGradient s now g
  | .gearUp now => (shiftUp s now).1
  | .gearDown now => (shiftDown s now).1
  | .enable => { s with isEnabled := true }
  | .disable => { s with isEnabled := false }

def runKickrOps (s : KickrState) (ops : List KickrOp) : KickrState :=
  ops.foldl runKickrOp s

/-! ## RideOn handshake (BLE_KickrBikeService.cpp `processWrite` and friends) -/

/-- `BLE_KickrBikeService::isRideOnMessage`. -/
def isRideOnMessage (data : List Nat) : Bool :=
  data.length == 6 &&
  data.getD 0 0 == 0x52 && data.getD 1 0 == 0x69 && data.getD 2 0 == 0x64 &&
  data.getD 3 0 == 0x65 && data.getD 4 0 == 0x4F && data.getD 5 0 == 0x6E

/-- `BLE_KickrBikeService::sendRideOnResponse`: "RideOn" + signature `01 03`
notified on Sync TX. -/
def sendRideOnResponse : BleNotify :=
  .syncTx [0x52, 0x69, 0x64, 0x65, 0x4F, 0x6E, 0x01, 0x03]

/-- `BLE_KickrBikeService::sendStatusResponse`. -/
def sendStatusResponse (status : Nat) : BleNotify := .syncTx [0x12, status]

/-- `BLE_KickrBikeService::sendGetResponse` (empty payload in the current
implementation). -/
def sendGetResponse (objectId : Nat) (payload : List Nat) : BleNotify :=
  .syncTx ([0x3C, objectId % 256, objectId / 256 % 256] ++ payload)

/-- `BLE_KickrBikeService::processWrite(value)`: RideOn handshake detection,
then opcode dispatch (GET 0x08, RESET 0x22, LOG_LEVEL_SET 0x41,
VENDOR_MESSAGE 0x32; 0x07/0x19/unknown only log). -/
def processWrite (s : KickrState) (now : Nat) (value : List Nat) :
    KickrState × List BleNotify :=
  if value.isEmpty then (s, [])
  else if isRideOnMessage value then
    ({ s with isHandshakeComplete := true, lastKeepAliveTime := now }, [sendRideOnResponse])
  else
    let opcode := value.getD 0 0
    let messageData := value.drop 1
    if opcode == 0x08 then
      if messageData.length < 1 then (s, [sendStatusResponse 0x02])
      else
        let objectId :=
          if 2 ≤ messageData.length then messageData.getD 1 0 * 256 + messageData.getD 0 0
          else messageData.getD 0 0
        (s, [sendGetResponse objectId []])
    else if opcode == 0x22 then
      let s1 := { s with currentGear := KICKR_BIKE_DEFAULT_GEAR, baseGradient := 0,
                         effectiveGradient := 0, targetPower := 0 }
      let s2 := if s1.isEnabled then applyGradientToTrainer s1 now else s1
      (s2, [sendStatusResponse 0x00])
    else if opcode == 0x41 then
      if messageData.length < 1 then (s, []) else (s, [sendStatusResponse 0x00])
    else if opcode == 0x32 then (s, [sendStatusResponse 0x00])
    else (s, [])

/-! ## Concrete fixtures used in the theorems below -/

/-- The minimal DISCOVER_SERVICES request `01 01 00 00 00 00`. -/
def discoverServicesRequest : List Nat := [0x01, 0x01, 0x00, 0x00, 0x00, 0x00]

/-- A discover-services frame whose body length (3) is not a multiple of 16. -/
def malformedDiscoverFrame : List Nat :=
  [0x01, 0x01, 0x05, 0x00, 0x00, 0x03, 0xAA, 0xBB, 0xCC]

/-- The FTMS Control Point characteristic as the FTMS collaborator registers
it (`src/unnamed/part_003`, `setupService`):
`NIMBLE_PROPERTY::WRITE | NIMBLE_PROPERTY::NOTIFY`; the value starts empty. -/
def ftmsControlPointChar : GattChar :=
  { uuid := FITNESSMACHINECONTROLPOINT_UUID,
    props := NIMBLE_PROPERTY_WRITE ||| NIMBLE_PROPERTY_NOTIFY,
    value := [] }

/-- FTMS Training Status as registered there:
`NIMBLE_PROPERTY::READ | NIMBLE_PROPERTY::NOTIFY`, value initially empty. -/
def ftmsTrainingStatusChar : GattChar :=
  { uuid := FITNESSMACHINETRAININGSTATUS_UUID,
    props := NIMBLE_PROPERTY_READ ||| NIMBLE_PROPERTY_NOTIFY,
    value := [] }

/-- FTMS Machine Status as registered there: `NIMBLE_PROPERTY::NOTIFY`, value
initially empty. -/
def ftmsMachineStatusChar : GattChar :=
  { uuid := FITNESSMACHINESTATUS_UUID,
    props := NIMBLE_PROPERTY_NOTIFY,
    value := [] }

/-- A server tree holding the FTMS service with the three characteristics the
control-point handler touches (the full registration also has the read-only
feature/range characteristics and indoor-bike data, which no theorem below
needs). -/
def ftmsGatt : List GattService :=
  [{ uuid := FITNESSMACHINESERVICE_UUID,
     chars := [ftmsControlPointChar, ftmsTrainingStatusChar, ftmsMachineStatusChar] }]

/-- A *hypothetical* characteristic carrying INDICATE but not NOTIFY — no
characteristic in the repository's own services is registered this way; it
exhibits how the dispatcher treats the INDICATE-without-NOTIFY case the claim
quantifies over. -/
def indicateOnlyChar : GattChar :=
  { uuid := btBaseUuid 0xFFF0,
    props := NIMBLE_PROPERTY_WRITE ||| NIMBLE_PROPERTY_INDICATE,
    value := [] }

/-- A server tree exposing `indicateOnlyChar`. -/
def indicateOnlyGatt : List GattService :=
  [{ uuid := FITNESSMACHINESERVICE_UUID, chars := [indicateOnlyChar] }]

/-- A WRITE_CHARACTERISTIC frame whose body is exactly the 16-byte UUID and
zero value bytes (`Length = 0x10`). -/
def writeZeroLengthFrame : List Nat :=
  [0x01, 0x04, 0x02, 0x00, 0x00, 0x10] ++ uuidToBytes FITNESSMACHINECONTROLPOINT_UUID

/-- A WRITE_CHARACTERISTIC frame carrying a single value byte `0x09`. -/
def writeOneByteFrame : List Nat :=
  [0x01, 0x04, 0x02, 0x00, 0x00, 0x11] ++ uuidToBytes FITNESSMACHINECONTROLPOINT_UUID ++ [0x09]

/-- An ENABLE_CHARACTERISTIC_NOTIFICATIONS frame targeting `indicateOnlyChar`
with enable flag 1. -/
def enableIndicateOnlyFrame : List Nat :=
  [0x01, 0x05, 0x02, 0x00, 0x00, 0x11] ++ uuidToBytes (btBaseUuid 0xFFF0) ++ [0x01]

/-- The same request in parsed form. -/
def enableIndicateOnlyMessage : DirConMessage :=
  { Identifier := DIRCON_MSGID_ENABLE_CHARACTERISTIC_NOTIFICATIONS,
    SequenceNumber := 0x02,
    UUID := btBaseUuid 0xFFF0,
    AdditionalData := [0x01],
    Length := 17,
    Request := true }

/-! # Theorems -/

theorem exists_sixteen (l : List Nat) (h : l.length = 16) :
    ∃ b0 b1 b2 b3 b4 b5 b6 b7 b8 b9 b10 b11 b12 b13 b14 b15,
      l = [b0, b1, b2, b3, b4, b5, b6, b7, b8, b9, b10, b11, b12, b13, b14, b15] := by
  rcases l with _ | ⟨b0, l⟩
  · simp only [List.length_nil] at h; omega
  rcases l with _ | ⟨b1, l⟩
  · simp only [List.length_cons, List.length_nil] at h; omega
  rcases l with _ | ⟨b2, l⟩
  · simp only [List.length_cons, List.length_nil] at h; omega
  rcases l with _ | ⟨b3, l⟩
  · simp only [List.length_cons, List.length_nil] at h; omega
  rcases l with _ | ⟨b4, l⟩
  · simp only [List.length_cons, List.length_nil] at h; omega
  rcases l with _ | ⟨b5, l⟩
  · simp only [List.length_cons, List.length_nil] at h; omega
  rcases l with _ | ⟨b6, l⟩
  · simp only [List.length_cons, List.length_nil] at h; omega
  rcases l with _ | ⟨b7, l⟩
  · simp only [List.length_cons, List.length_nil] at h; omega
  rcases l with _ | ⟨b8, l⟩
  · simp only [List.length_cons, List.length_nil] at h; omega
  rcases l with _ | ⟨b9, l⟩
  · simp only [List.length_cons, List.length_nil] at h; omega
  rcases l with _ | ⟨b10, l⟩
  · simp only [List.length_cons, List.length_nil] at h; omega
  rcases l with _ | ⟨b11, l⟩
  · simp only [List.length_cons, List.length_nil] at h; omega
  rcases l with _ | ⟨b12, l⟩
  · simp only [List.length_cons, List.length_nil] at h; omega
  rcases l with _ | ⟨b13, l⟩
  · simp only [List.length_cons, List.length_nil] at h; omega
  rcases l with _ | ⟨b14, l⟩
  · simp only [List.length_cons, List.length_nil] at h; omega
  rcases l with _ | ⟨b15, l⟩
  · simp only [List.length_cons, List.length_nil] at h; omega
  rcases l with _ | ⟨b16, l⟩
  · exact ⟨b0, b1, b2, b3, b4, b5, b6, b7, b8, b9, b10, b11, b12, b13, b14, b15, rfl⟩
  · simp only [List.length_cons, List.length_nil] at h; omega

/-- C1: for every 16-byte UUID, `uuidToBytes` followed by `bytesToUuid` is the
identity on the UUID's bytes, the on-wire form is the 16-byte reversal, and
that reversal (`bytesToUuid` itself) is an involution. -/
theorem c1_uuid_roundtrip (u : List Nat) (h : u.length = 16) :
    bytesToUuid (uuidToBytes u) 0 = u ∧
    uuidToBytes u = u.reverse ∧
    bytesToUuid (bytesToUuid u 0) 0 = u := by
  obtain ⟨b0, b1, b2, b3, b4, b5, b6, b7, b8, b9, b10, b11, b12, b13, b14, b15, rfl⟩ :=
    exists_sixteen u h
  exact ⟨rfl, rfl, rfl⟩

/-- Witness for C1 at the Zwift Ride service UUID bytes. -/
theorem c1_uuid_roundtrip_witness :
    ZWIFT_RIDE_SERVICE_UUID.length = 16 ∧
    (bytesToUuid (uuidToBytes ZWIFT_RIDE_SERVICE_UUID) 0 = ZWIFT_RIDE_SERVICE_UUID ∧
     uuidToBytes ZWIFT_RIDE_SERVICE_UUID = ZWIFT_RIDE_SERVICE_UUID.reverse ∧
     bytesToUuid (bytesToUuid ZWIFT_RIDE_SERVICE_UUID 0) 0 = ZWIFT_RIDE_SERVICE_UUID) :=
  ⟨by decide, c1_uuid_roundtrip ZWIFT_RIDE_SERVICE_UUID (by decide)⟩

/-- C2 counterexample: the Zwift Ride service UUID is not among the advertised
services, and the minimal discover-services request is not answered by the
22-byte frame `01 01 00 00 00 10` + reversed Zwift Ride UUID — the actual
response frame is 70 bytes long. -/
theorem c2_counterexample :
    ZWIFT_RIDE_SERVICE_UUID ∉ getAvailableServices ∧
    (handleClientData {} [] {} discoverServicesRequest).outputs ≠
      [[0x01, 0x01, 0x00, 0x00, 0x00, 0x10] ++ uuidToBytes ZWIFT_RIDE_SERVICE_UUID] ∧
    ((handleClientData {} [] {} discoverServicesRequest).outputs.getD 0 []).length = 70 := by
  decide

/-- C2 (amended): the advertised list is exactly Cycling Power, CSC, Heart
Rate and FTMS — no Zwift Ride — and the minimal request `01 01 00 00 00 00` is
answered by `01 01 00 00 00 40` followed by the 64 reversed bytes of those
four service UUIDs, 70 bytes in total. -/
theorem c2_amended_services :
    getAvailableServices =
      [CYCLINGPOWERSERVICE_UUID, CSCSERVICE_UUID, HEARTSERVICE_UUID, FITNESSMACHINESERVICE_UUID] ∧
    ZWIFT_RIDE_SERVICE_UUID ∉ getAvailableServices ∧
    (handleClientData {} [] {} discoverServicesRequest).outputs =
      [[0x01, 0x01, 0x00, 0x00, 0x00, 0x40] ++
        uuidToBytes CYCLINGPOWERSERVICE_UUID ++ uuidToBytes CSCSERVICE_UUID ++
        uuidToBytes HEARTSERVICE_UUID ++ uuidToBytes FITNESSMACHINESERVICE_UUID] ∧
    ((handleClientData {} [] {} discoverServicesRequest).outputs.getD 0 []).length = 70 := by
  decide

/-- C3 counterexample: the TCP port constant is 8081, not 36867, so neither
the bound port nor the mDNS-announced port is 36867. -/
theorem c3_counterexample :
    DIRCON_TCP_PORT ≠ 36867 ∧
    DirConManager_start.tcpServerPort ≠ 36867 ∧
    DirConManager_start.mdnsServicePort ≠ 36867 := by
  decide

/-- C3 (amended): the bound TCP port and the mDNS-announced port are both the
fixed `DIRCON_TCP_PORT`, which equals 8081. -/
theorem c3_amended_port :
    DirConManager_start.tcpServerPort = DIRCON_TCP_PORT ∧
    DirConManager_start.mdnsServicePort = DIRCON_TCP_PORT ∧
    DIRCON_TCP_PORT = 8081 := by
  decide

/-- C5 counterexample: a discover-services frame whose body length is not a
multiple of 16, followed by a valid discover-services request, produces no
output at all (in particular no UNEXPECTED_ERROR reply), dispatches no
request, and leaves the whole buffer unconsumed — the following frame is
never processed. -/
theorem c5_counterexample :
    (handleClientData {} [] {} (malformedDiscoverFrame ++ discoverServicesRequest)).outputs = [] ∧
    (handleClientData {} [] {} (malformedDiscoverFrame ++ discoverServicesRequest)).requests = [] ∧
    (handleClientData {} [] {} (malformedDiscoverFrame ++ discoverServicesRequest)).leftover =
      malformedDiscoverFrame ++ discoverServicesRequest := by
  decide

/-- C6 counterexample: a WRITE whose body is exactly the 16-byte UUID of the
(WRITE-property) FTMS control point with zero value bytes is rejected by
`parse` (identifier forced to error, nothing consumed): no request is
dispatched, no reply is sent, and the value is not committed. -/
theorem c6_counterexample :
    ftmsControlPointChar.props &&& NIMBLE_PROPERTY_WRITE ≠ 0 ∧
    (DirConMessage.parse ftmsGatt writeZeroLengthFrame 0).1.Identifier = DIRCON_MSGID_ERROR ∧
    (DirConMessage.parse ftmsGatt writeZeroLengthFrame 0).2 = 0 ∧
    (handleClientData {} ftmsGatt {} writeZeroLengthFrame).outputs = [] ∧
    (handleClientData {} ftmsGatt {} writeZeroLengthFrame).requests = [] ∧
    (handleClientData {} ftmsGatt {} writeZeroLengthFrame).gatt = ftmsGatt := by
  decide

/-- C8 counterexample: the claim quantifies over every characteristic
possessing INDICATE (even without NOTIFY) and says its subscription succeeds
with a UUID echo; but the dispatcher checks only NOTIFY, so an
INDICATE-without-NOTIFY characteristic (`indicateOnlyChar`, a hypothetical
fixture — the repository's own FTMS Control Point carries WRITE | NOTIFY and
is *accepted*) is answered with OPERATION_NOT_SUPPORTED (0x05) and no
subscription is recorded. -/
theorem c8_counterexample :
    indicateOnlyChar.props &&& NIMBLE_PROPERTY_INDICATE ≠ 0 ∧
    indicateOnlyChar.props &&& NIMBLE_PROPERTY_NOTIFY = 0 ∧
    (handleClientData {} indicateOnlyGatt {} enableIndicateOnlyFrame).outputs =
      [[0x01, 0x05, 0x02, 0x05, 0x00, 0x00]] ∧
    ((handleClientData {} indicateOnlyGatt {} enableIndicateOnlyFrame).outputs.getD 0 []).getD 3 0 =
      DIRCON_RESPCODE_CHARACTERISTIC_OPERATION_NOT_SUPPORTED ∧
    (handleClientData {} indicateOnlyGatt {} enableIndicateOnlyFrame).client.clientSubscriptions =
      List.replicate DIRCON_MAX_CHARACTERISTICS false := by
  decide

set_option maxRecDepth 10000 in
/-- C10: subscription membership is keyed by the djb2 hash of the UUID string
mod 10, not by the characteristic: the Sync RX characteristic and the FTMS
Control Point hash to the same bucket, so subscribing to one makes
`hasSubscription` report the other, and removing one clears the other. -/
theorem c10_subscription_aliasing :
    ∃ u v : List Nat, u ≠ v ∧ charSubscriptionIndex u = charSubscriptionIndex v ∧
      hasSubscription (addSubscription (List.replicate DIRCON_MAX_CHARACTERISTICS false) u) v = true ∧
      hasSubscription (removeSubscription
        (addSubscription (List.replicate DIRCON_MAX_CHARACTERISTICS false) u) u) v = false ∧
      hasSubscription (List.replicate DIRCON_MAX_CHARACTERISTICS false) v = false :=
  ⟨ZWIFT_SYNC_RX_UUID, FITNESSMACHINECONTROLPOINT_UUID, by decide, by decide, by decide, by decide, by decide⟩

theorem cppIntCast_bounds (q : ℚ) (h1 : -2000 ≤ q) (h2 : q ≤ 2000) :
    -2000 ≤ cppIntCast q ∧ cppIntCast q ≤ 2000 := by
  unfold cppIntCast
  split
  · refine ⟨Int.le_floor.mpr (by exact_mod_cast h1), ?_⟩
    have hf : (⌊q⌋ : ℚ) ≤ q := Int.floor_le q
    have hle : (⌊q⌋ : ℚ) ≤ 2000 := le_trans hf h2
    exact_mod_cast hle
  · refine ⟨?_, Int.ceil_le.mpr (by exact_mod_cast h2)⟩
    have hc : q ≤ (⌈q⌉ : ℚ) := Int.le_ceil q
    have hle : (-2000 : ℚ) ≤ (⌈q⌉ : ℚ) := le_trans h1 hc
    exact_mod_cast hle

theorem applyGradientToTrainer_fields (s : KickrState) (now : Nat) :
    (applyGradientToTrainer s now).effectiveGradient = s.effectiveGradient ∧
    (applyGradientToTrainer s now).baseGradient = s.baseGradient ∧
    (applyGradientToTrainer s now).currentGear = s.currentGear ∧
    (applyGradientToTrainer s now).isHandshakeComplete = s.isHandshakeComplete ∧
    ((-2000 ≤ (applyGradientToTrainer s now).targetIncline ∧
        (applyGradientToTrainer s now).targetIncline ≤ 2000) ∨
      (applyGradientToTrainer s now).targetIncline = s.targetIncline) := by
  unfold applyGradientToTrainer
  split
  · exact ⟨rfl, rfl, rfl, rfl, Or.inr rfl⟩
  · refine ⟨rfl, rfl, rfl, rfl, Or.inl ?_⟩
    apply cppIntCast_bounds
    · split <;> split <;> try norm_num
      rename_i hlo hhi
      push_neg at hlo hhi
      linarith
    · split <;> split <;> try norm_num
      rename_i hlo hhi
      push_neg at hlo hhi
      linarith

theorem invKickr_apply (x : KickrState) (now : Nat)
    (h1 : x.effectiveGradient = x.baseGradient * gearRatioAt x.currentGear)
    (h2 : 0 ≤ x.currentGear) (h3 : x.currentGear < 24)
    (h4 : -2000 ≤ x.targetIncline) (h5 : x.targetIncline ≤ 2000) :
    (applyGradientToTrainer x now).effectiveGradient =
      (applyGradientToTrainer x now).baseGradient *
        gearRatioAt (applyGradientToTrainer x now).currentGear ∧
    0 ≤ (applyGradientToTrainer x now).currentGear ∧
    (applyGradientToTrainer x now).currentGear < 24 ∧
    -2000 ≤ (applyGradientToTrainer x now).targetIncline ∧
    (applyGradientToTrainer x now).targetIncline ≤ 2000 := by
  obtain ⟨e1, e2, e3, _, e5⟩ := applyGradientToTrainer_fields x now
  refine ⟨?_, ?_, ?_, ?_, ?_⟩
  · rw [e1, e2, e3]; exact h1
  · rw [e3]; exact h2
  · rw [e3]; exact h3
  · rcases e5 with ⟨l, _⟩ | e5
    · exact l
    · rw [e5]; exact h4
  · rcases e5 with ⟨_, r⟩ | e5
    · exact r
    · rw [e5]; exact h5

theorem runKickrOp_inv (s : KickrState) (op : KickrOp)
    (h : s.effectiveGradient = s.baseGradient * gearRatioAt s.currentGear ∧
         0 ≤ s.currentGear ∧ s.currentGear < 24 ∧
         -2000 ≤ s.targetIncline ∧ s.targetIncline ≤ 2000) :
    (runKickrOp s op).effectiveGradient =
      (runKickrOp s op).baseGradient * gearRatioAt (runKickrOp s op).currentGear ∧
    0 ≤ (runKickrOp s op).currentGear ∧ (runKickrOp s op).currentGear < 24 ∧
    -2000 ≤ (runKickrOp s op).targetIncline ∧ (runKickrOp s op).targetIncline ≤ 2000 := by
  obtain ⟨h1, h2, h3, h4, h5⟩ := h
  cases op with
  | setBase now g =>
    simp only [runKickrOp, setBaseGradient]
    split
    · exact invKickr_apply _ now rfl h2 h3 h4 h5
    · exact ⟨rfl, h2, h3, h4, h5⟩
  | gearUp now =>
    simp only [runKickrOp, shiftUp]
    split
    · rename_i hg
      simp only [applyGearChange]
      split
      · refine invKickr_apply _ now rfl ?_ ?_ h4 h5
        · show (0 : Int) ≤ s.currentGear + 1
          omega
        · show s.currentGear + 1 < (24 : Int)
          omega
      · refine ⟨rfl, ?_, ?_, h4, h5⟩
        · show (0 : Int) ≤ s.currentGear + 1
          omega
        · show s.currentGear + 1 < (24 : Int)
          omega
    · exact ⟨h1, h2, h3, h4, h5⟩
  | gearDown now =>
    simp only [runKickrOp, shiftDown]
    split
    · rename_i hg
      simp only [applyGearChange]
      split
      · refine invKickr_apply _ now rfl ?_ ?_ h4 h5
        · show (0 : Int) ≤ s.currentGear - 1
          omega
        · show s.currentGear - 1 < (24 : Int)
          omega
      · refine ⟨rfl, ?_, ?_, h4, h5⟩
        · show (0 : Int) ≤ s.currentGear - 1
          omega
        · show s.currentGear - 1 < (24 : Int)
          omega
    · exact ⟨h1, h2, h3, h4, h5⟩
  | enable => exact ⟨h1, h2, h3, h4, h5⟩
  | disable => exact ⟨h1, h2, h3, h4, h5⟩

/-- C4 counterexample: after `setBaseGradient(30)` in the default gear
(ratio 1.05) the stored effective gradient is 31.5 % — 3150 in 0.01 % units —
which exceeds 2000 in magnitude and differs from the clamped product, so the
stored value is not `clamp(base × ratio, -2000, 2000)`. -/
theorem c4_counterexample :
    (setBaseGradient {} 0 30).effectiveGradient = 31.5 ∧
    2000 < (setBaseGradient {} 0 30).effectiveGradient * 100 ∧
    (setBaseGradient {} 0 30).effectiveGradient ≠
      max (-20) (min 20 ((setBaseGradient {} 0 30).baseGradient *
        gearRatioAt (setBaseGradient {} 0 30).currentGear)) := by
  have hr : gearRatioAt (11 : Int) = 1.05 := by
    have htn : ((11 : Int)).toNat = 11 := rfl
    norm_num [gearRatioAt, gearRatios, htn]
  have hs : setBaseGradient {} 0 30 =
      { currentGear := 11, baseGradient := 30,
        effectiveGradient := 30 * gearRatioAt (11 : Int) } := rfl
  rw [hs]
  simp only [hr]
  norm_num [min_def, max_def]

/-- C4 (amended): after any sequence of `setBaseGradient` / `shiftUp` /
`shiftDown` / `enable` / `disable` operations the stored effective gradient is
the *unclamped* product base × ratio(gear), the gear stays within [0, 24), and
the incline value applied to the trainer (`rtConfig->setTargetIncline`,
0.01 % units) is clamped, never exceeding 2000 in magnitude; the clamp
conjunct is exercised: enabling the service and then setting base gradient
30 % at ratio 1.05 (effective 31.5 %, i.e. 3150 unclamped) applies exactly the
clamped 2000. -/
theorem c4_amended_invariant (ops : List KickrOp) :
    ((runKickrOps {} ops).effectiveGradient =
      (runKickrOps {} ops).baseGradient * gearRatioAt (runKickrOps {} ops).currentGear ∧
    0 ≤ (runKickrOps {} ops).currentGear ∧ (runKickrOps {} ops).currentGear < 24 ∧
    -2000 ≤ (runKickrOps {} ops).targetIncline ∧ (runKickrOps {} ops).targetIncline ≤ 2000) ∧
    (runKickrOps {} [KickrOp.enable, KickrOp.setBase 150 30]).targetIncline = 2000 := by
  constructor
  case right =>
    have hr : gearRatioAt (11 : Int) = 1.05 := by
      have htn : ((11 : Int)).toNat = 11 := rfl
      norm_num [gearRatioAt, gearRatios, htn]
    have hs : runKickrOps {} [KickrOp.enable, KickrOp.setBase 150 30] =
        applyGradientToTrainer
          { currentGear := 11, baseGradient := 30,
            effectiveGradient := 30 * gearRatioAt (11 : Int), isEnabled := true } 150 := rfl
    rw [hs]
    show cppIntCast
        ((if (if (30 : ℚ) * gearRatioAt (11 : Int) < -20 then (-20 : ℚ)
              else 30 * gearRatioAt (11 : Int)) > 20 then (20 : ℚ)
          else if (30 : ℚ) * gearRatioAt (11 : Int) < -20 then (-20 : ℚ)
              else 30 * gearRatioAt (11 : Int)) * 100) = 2000
    rw [hr]
    norm_num [cppIntCast]
  suffices H : ∀ s : KickrState,
      (s.effectiveGradient = s.baseGradient * gearRatioAt s.currentGear ∧
        0 ≤ s.currentGear ∧ s.currentGear < 24 ∧
        -2000 ≤ s.targetIncline ∧ s.targetIncline ≤ 2000) →
      ((runKickrOps s ops).effectiveGradient =
        (runKickrOps s ops).baseGradient * gearRatioAt (runKickrOps s ops).currentGear ∧
        0 ≤ (runKickrOps s ops).currentGear ∧ (runKickrOps s ops).currentGear < 24 ∧
        -2000 ≤ (runKickrOps s ops).targetIncline ∧ (runKickrOps s ops).targetIncline ≤ 2000) by
    exact H {} ⟨(zero_mul _).symm, by decide, by decide, by decide, by decide⟩
  induction ops with
  | nil => intro s hs; exact hs
  | cons op rest ih =>
    intro s hs
    have hstep := runKickrOp_inv s op hs
    simpa only [runKickrOps, List.foldl_cons] using ih (runKickrOp s op) hstep

/-- C9: a Sync RX write of exactly the 6 ASCII bytes "RideOn" makes
`processWrite` emit the 8-byte Sync TX notification `52 69 64 65 4F 6E 01 03`,
set the handshake flag, reset the keep-alive timer to the current instant and
dispatch no opcode (no other state change, no other notification); a write of
any other content leaves the handshake flag unchanged. -/
theorem c9_rideon_handshake (s : KickrState) (now : Nat) (value : List Nat) :
    (isRideOnMessage value = true →
      processWrite s now value =
        ({ s with isHandshakeComplete := true, lastKeepAliveTime := now },
         [BleNotify.syncTx [0x52, 0x69, 0x64, 0x65, 0x4F, 0x6E, 0x01, 0x03]])) ∧
    (isRideOnMessage value = false →
      (processWrite s now value).1.isHandshakeComplete = s.isHandshakeComplete) := by
  constructor
  · intro h
    have hne : value.isEmpty = false := by
      cases value with
      | nil => simp [isRideOnMessage] at h
      | cons a t => rfl
    simp [processWrite, hne, h, sendRideOnResponse]
  · intro h
    unfold processWrite
    split
    · rfl
    · rw [h]
      simp only [Bool.false_eq_true, if_false]
      repeat' split
      all_goals try rfl
      all_goals rw [(applyGradientToTrainer_fields _ now).2.2.2.1]

/-- Witness for C9: the RideOn write (with instant 5) and a non-RideOn write. -/
theorem c9_rideon_handshake_witness :
    processWrite {} 5 [0x52, 0x69, 0x64, 0x65, 0x4F, 0x6E] =
      ({ ({} : KickrState) with isHandshakeComplete := true, lastKeepAliveTime := 5 },
       [BleNotify.syncTx [0x52, 0x69, 0x64, 0x65, 0x4F, 0x6E, 0x01, 0x03]]) ∧
    (processWrite {} 5 [0x09]).1.isHandshakeComplete = ({} : KickrState).isHandshakeComplete :=
  ⟨(c9_rideon_handshake {} 5 [0x52, 0x69, 0x64, 0x65, 0x4F, 0x6E]).1 (by decide),
   (c9_rideon_handshake {} 5 [0x09]).2 (by decide)⟩

theorem parse_malformed_frame_stops (gatt : List GattService) (rest : List Nat) (q : Nat) :
    (DirConMessage.parse gatt (malformedDiscoverFrame ++ rest) q).2 = 0 ∧
    (DirConMessage.parse gatt (malformedDiscoverFrame ++ rest) q).1.Identifier =
      DIRCON_MSGID_ERROR := by
  have e1 : (malformedDiscoverFrame ++ rest).getD 1 0 = 1 := by
    rw [List.getD_append _ _ _ _ (by decide)]; decide
  have e4 : (malformedDiscoverFrame ++ rest).getD 4 0 = 0 := by
    rw [List.getD_append _ _ _ _ (by decide)]; decide
  have e5 : (malformedDiscoverFrame ++ rest).getD 5 0 = 3 := by
    rw [List.getD_append _ _ _ _ (by decide)]; decide
  simp only [DirConMessage.parse, parseSwitch]
  repeat' split
  all_goals try simp_all
  all_goals repeat' split
  all_goals simp_all

/-- C5 (amended): a frame whose body layout is inconsistent with its
identifier (a discover-services frame with body length 3) produces *no* reply
at all — in particular no UNEXPECTED_ERROR — and parsing stops: the malformed
bytes stay in the receive buffer, so any frames behind it are not processed
either (the connection itself is not closed). -/
theorem c5_amended_no_reply (env : FtmsEnv) (gatt : List GattService) (cs : ClientState)
    (rest : List Nat) (fuel : Nat) :
    (processBuffer env gatt cs (malformedDiscoverFrame ++ rest) fuel).outputs = [] ∧
    (processBuffer env gatt cs (malformedDiscoverFrame ++ rest) fuel).requests = [] ∧
    (processBuffer env gatt cs (malformedDiscoverFrame ++ rest) fuel).leftover =
      malformedDiscoverFrame ++ rest ∧
    (processBuffer env gatt cs (malformedDiscoverFrame ++ rest) fuel).client = cs ∧
    (processBuffer env gatt cs (malformedDiscoverFrame ++ rest) fuel).gatt = gatt := by
  have hp := (parse_malformed_frame_stops gatt rest cs.lastSequenceNumber).1
  cases fuel with
  | zero => exact ⟨rfl, rfl, rfl, rfl, rfl⟩
  | succ n =>
    have hne : (malformedDiscoverFrame ++ rest).isEmpty = false := rfl
    simp [processBuffer, hne, hp]

theorem parse_write_zero_length (gatt : List GattService) (s q : Nat) (uuidWire : List Nat)
    (h : uuidWire.length = 16) :
    (DirConMessage.parse gatt ([1, 4, s, 0, 0, 16] ++ uuidWire) q).2 = 0 ∧
    (DirConMessage.parse gatt ([1, 4, s, 0, 0, 16] ++ uuidWire) q).1.Identifier =
      DIRCON_MSGID_ERROR := by
  have e1 : (([1, 4, s, 0, 0, 16] : List Nat) ++ uuidWire).getD 1 0 = 4 := by
    rw [List.getD_append _ _ _ _ (by simp)]; rfl
  have e4 : (([1, 4, s, 0, 0, 16] : List Nat) ++ uuidWire).getD 4 0 = 0 := by
    rw [List.getD_append _ _ _ _ (by simp)]; rfl
  have e5 : (([1, 4, s, 0, 0, 16] : List Nat) ++ uuidWire).getD 5 0 = 16 := by
    rw [List.getD_append _ _ _ _ (by simp)]; rfl
  simp only [DirConMessage.parse, parseSwitch]
  repeat' split
  all_goals try simp_all [DIRCON_MSGID_DISCOVER_SERVICES, DIRCON_MSGID_DISCOVER_CHARACTERISTICS,
    DIRCON_MSGID_READ_CHARACTERISTIC, DIRCON_MSGID_WRITE_CHARACTERISTIC,
    DIRCON_MSGID_ENABLE_CHARACTERISTIC_NOTIFICATIONS,
    DIRCON_MSGID_UNSOLICITED_CHARACTERISTIC_NOTIFICATION, DIRCON_MSGID_ERROR]
  all_goals repeat' split
  all_goals simp_all

/-- C6 (amended): a TNP WRITE whose body is exactly the 16-byte UUID and zero
value bytes is rejected by `parse` as malformed (identifier forced to error,
nothing consumed, no reply), for every characteristic and client; only WRITE
requests carrying at least one value byte are dispatched — one such write of
the unsupported op code 0x09 to the FTMS control point is acknowledged with a
body of the three FTMS response bytes `80 09 02` (frame length 0x13), the
value `processFTMSWrite` stored into the control point before the dispatcher
echoed `characteristic->getValue()`, and the control point's stored value
afterwards is exactly those bytes, not the written `09`. -/
theorem c6_amended_zero_length_write (gatt : List GattService) (s q : Nat)
    (uuidWire : List Nat) (h : uuidWire.length = 16) :
    (DirConMessage.parse gatt ([1, 4, s, 0, 0, 16] ++ uuidWire) q).2 = 0 ∧
    (DirConMessage.parse gatt ([1, 4, s, 0, 0, 16] ++ uuidWire) q).1.Identifier =
      DIRCON_MSGID_ERROR ∧
    (handleClientData {} ftmsGatt {} writeOneByteFrame).outputs =
      [[0x01, 0x04, 0x02, 0x00, 0x00, 0x13] ++
        uuidToBytes FITNESSMACHINECONTROLPOINT_UUID ++ [0x80, 0x09, 0x02]] ∧
    getCharacteristicValue (handleClientData {} ftmsGatt {} writeOneByteFrame).gatt
      FITNESSMACHINECONTROLPOINT_UUID = [0x80, 0x09, 0x02] := by
  obtain ⟨p1, p2⟩ := parse_write_zero_length gatt s q uuidWire h
  exact ⟨p1, p2, by decide, by decide⟩

/-- Witness for C6 (amended) at a concrete 16-byte UUID. -/
theorem c6_amended_zero_length_write_witness :
    ZWIFT_SYNC_RX_UUID.length = 16 ∧
    ((DirConMessage.parse [] ([1, 4, 7, 0, 0, 16] ++ ZWIFT_SYNC_RX_UUID) 0).2 = 0 ∧
     (DirConMessage.parse [] ([1, 4, 7, 0, 0, 16] ++ ZWIFT_SYNC_RX_UUID) 0).1.Identifier =
       DIRCON_MSGID_ERROR ∧
     (handleClientData {} ftmsGatt {} writeOneByteFrame).outputs =
       [[0x01, 0x04, 0x02, 0x00, 0x00, 0x13] ++
         uuidToBytes FITNESSMACHINECONTROLPOINT_UUID ++ [0x80, 0x09, 0x02]] ∧
     getCharacteristicValue (handleClientData {} ftmsGatt {} writeOneByteFrame).gatt
       FITNESSMACHINECONTROLPOINT_UUID = [0x80, 0x09, 0x02]) :=
  ⟨by decide, c6_amended_zero_length_write [] 7 0 ZWIFT_SYNC_RX_UUID (by decide)⟩

theorem encode_response_bytes (m : DirConMessage) (q : Nat)
    (h1 : m.Request = false) (h2 : m.Identifier ≠ DIRCON_MSGID_ERROR)
    (h3 : m.Identifier ≠ DIRCON_MSGID_UNSOLICITED_CHARACTERISTIC_NOTIFICATION) :
    m.encode q ≠ [] ∧ (m.encode q).getD 2 0 = q := by
  have e1 : (m.Identifier == DIRCON_MSGID_ERROR) = false := by
    simp [h2]
  have e3 : (m.Identifier == DIRCON_MSGID_UNSOLICITED_CHARACTERISTIC_NOTIFICATION) = false := by
    simp [h3]
  simp only [DirConMessage.encode, e1, h1, e3]
  simp only [Bool.false_eq_true, if_false, Bool.not_false, Bool.true_and]
  repeat' split
  all_goals simp [List.getD]

theorem sendResponse_single (cs : ClientState) (m : DirConMessage)
    (h1 : m.Request = false) (h2 : m.Identifier ≠ DIRCON_MSGID_ERROR)
    (h3 : m.Identifier ≠ DIRCON_MSGID_UNSOLICITED_CHARACTERISTIC_NOTIFICATION) :
    sendResponse cs m = [m.encode cs.lastSequenceNumber] ∧
    (m.encode cs.lastSequenceNumber).getD 2 0 = cs.lastSequenceNumber := by
  obtain ⟨hne, hgd⟩ := encode_response_bytes m cs.lastSequenceNumber h1 h2 h3
  refine ⟨?_, hgd⟩
  simp only [sendResponse]
  rw [if_neg]
  simp [List.isEmpty_iff, hne]

theorem parseSwitch_request_identifier (gatt : List GattService) (m0 : DirConMessage)
    (data : List Nat) (q : Nat) (m : DirConMessage) (n : Nat)
    (hp : parseSwitch gatt m0 data q = (m, n)) (h : m.Request = true)
    (h0 : m0.Request = false) :
    m.Identifier = DIRCON_MSGID_DISCOVER_SERVICES ∨
    m.Identifier = DIRCON_MSGID_DISCOVER_CHARACTERISTICS ∨
    m.Identifier = DIRCON_MSGID_READ_CHARACTERISTIC ∨
    m.Identifier = DIRCON_MSGID_WRITE_CHARACTERISTIC ∨
    m.Identifier = DIRCON_MSGID_ENABLE_CHARACTERISTIC_NOTIFICATIONS := by
  simp only [parseSwitch] at hp
  repeat' split at hp
  all_goals injection hp with hm hn
  all_goals subst hm
  all_goals simp_all

theorem parse_request_identifier (gatt : List GattService) (data : List Nat) (q : Nat)
    (m : DirConMessage) (n : Nat)
    (hp : DirConMessage.parse gatt data q = (m, n)) (h : m.Request = true) :
    m.Identifier = DIRCON_MSGID_DISCOVER_SERVICES ∨
    m.Identifier = DIRCON_MSGID_DISCOVER_CHARACTERISTICS ∨
    m.Identifier = DIRCON_MSGID_READ_CHARACTERISTIC ∨
    m.Identifier = DIRCON_MSGID_WRITE_CHARACTERISTIC ∨
    m.Identifier = DIRCON_MSGID_ENABLE_CHARACTERISTIC_NOTIFICATIONS := by
  simp only [DirConMessage.parse] at hp
  repeat' split at hp
  · injection hp with hm hn; subst hm; simp_all
  · injection hp with hm hn; subst hm; simp_all
  · exact parseSwitch_request_identifier gatt _ data q m n hp h rfl

theorem processDirConMessage_not_request (env : FtmsEnv) (gatt : List GattService)
    (cs : ClientState) (m : DirConMessage) (h : m.Request = false) :
    processDirConMessage env gatt cs m = ⟨gatt, cs, [], []⟩ := by
  simp [processDirConMessage, h]

theorem processDirConMessage_request_output (env : FtmsEnv) (gatt : List GattService)
    (cs : ClientState) (m : DirConMessage) (h1 : m.Request = true)
    (h2 : m.Identifier = DIRCON_MSGID_DISCOVER_SERVICES ∨
      m.Identifier = DIRCON_MSGID_DISCOVER_CHARACTERISTICS ∨
      m.Identifier = DIRCON_MSGID_READ_CHARACTERISTIC ∨
      m.Identifier = DIRCON_MSGID_WRITE_CHARACTERISTIC ∨
      m.Identifier = DIRCON_MSGID_ENABLE_CHARACTERISTIC_NOTIFICATIONS) :
    ∃ out, (processDirConMessage env gatt cs m).outputs = [out] ∧
      out.getD 2 0 = cs.lastSequenceNumber := by
  have hsend : ∀ r : DirConMessage, r.Request = false →
      (r.Identifier == DIRCON_MSGID_ERROR) = false →
      (r.Identifier == DIRCON_MSGID_UNSOLICITED_CHARACTERISTIC_NOTIFICATION) = false →
      ∃ out, sendResponse cs r = [out] ∧ out.getD 2 0 = cs.lastSequenceNumber := by
    intro r hr1 hr2 hr3
    obtain ⟨hs, hg⟩ := sendResponse_single cs r hr1
      (by simpa using hr2) (by simpa using hr3)
    exact ⟨_, hs, hg⟩
  rcases h2 with h2 | h2 | h2 | h2 | h2
  · simp only [processDirConMessage, h1, h2, Bool.not_true, Bool.false_eq_true, if_false,
      beq_self_eq_true, Nat.reduceBEq, if_true]
    first | (apply hsend <;> rfl) | (dsimp only; apply hsend <;> rfl)
  · simp only [processDirConMessage, h1, h2, Bool.not_true, Bool.false_eq_true, if_false,
      beq_self_eq_true, Nat.reduceBEq, if_true, DIRCON_MSGID_DISCOVER_SERVICES,
      DIRCON_MSGID_DISCOVER_CHARACTERISTICS, sendErrorResponse]
    cases hser : getServiceByUUID gatt m.UUID with
    | none =>
      simp only [hser]
      first | (apply hsend <;> rfl) | (dsimp only; apply hsend <;> rfl)
    | some service =>
      simp only [hser]
      first | (apply hsend <;> rfl) | (dsimp only; apply hsend <;> rfl)
  · simp only [processDirConMessage, h1, h2, Bool.not_true, Bool.false_eq_true, if_false,
      beq_self_eq_true, Nat.reduceBEq, if_true, DIRCON_MSGID_DISCOVER_SERVICES,
      DIRCON_MSGID_DISCOVER_CHARACTERISTICS, DIRCON_MSGID_READ_CHARACTERISTIC,
      sendErrorResponse]
    cases hfind : findCharacteristic gatt m.UUID with
    | none =>
      simp only [hfind]
      first | (apply hsend <;> rfl) | (dsimp only; apply hsend <;> rfl)
    | some c =>
      simp only [hfind]
      split
      · first | (apply hsend <;> rfl) | (dsimp only; apply hsend <;> rfl)
      · first | (apply hsend <;> rfl) | (dsimp only; apply hsend <;> rfl)
  · simp only [processDirConMessage, h1, h2, Bool.not_true, Bool.false_eq_true, if_false,
      beq_self_eq_true, Nat.reduceBEq, if_true, DIRCON_MSGID_DISCOVER_SERVICES,
      DIRCON_MSGID_DISCOVER_CHARACTERISTICS, DIRCON_MSGID_READ_CHARACTERISTIC,
      DIRCON_MSGID_WRITE_CHARACTERISTIC, sendErrorResponse]
    cases hfind : findCharacteristic gatt m.UUID with
    | none =>
      simp only [hfind]
      first | (apply hsend <;> rfl) | (dsimp only; apply hsend <;> rfl)
    | some c =>
      simp only [hfind]
      split
      · first | (apply hsend <;> rfl) | (dsimp only; apply hsend <;> rfl)
      · split
        · first | (apply hsend <;> rfl) | (dsimp only; apply hsend <;> rfl)
        · first | (apply hsend <;> rfl) | (dsimp only; apply hsend <;> rfl)
  · simp only [processDirConMessage, h1, h2, Bool.not_true, Bool.false_eq_true, if_false,
      beq_self_eq_true, Nat.reduceBEq, if_true, DIRCON_MSGID_DISCOVER_SERVICES,
      DIRCON_MSGID_DISCOVER_CHARACTERISTICS, DIRCON_MSGID_READ_CHARACTERISTIC,
      DIRCON_MSGID_WRITE_CHARACTERISTIC, DIRCON_MSGID_ENABLE_CHARACTERISTIC_NOTIFICATIONS,
      sendErrorResponse]
    cases hfind : findCharacteristic gatt m.UUID with
    | none =>
      simp only [hfind]
      first | (apply hsend <;> rfl) | (dsimp only; apply hsend <;> rfl)
    | some c =>
      simp only [hfind]
      split
      · first | (apply hsend <;> rfl) | (dsimp only; apply hsend <;> rfl)
      · first | (apply hsend <;> rfl) | (dsimp only; apply hsend <;> rfl)

theorem processBuffer_stop (env : FtmsEnv) (gatt : List GattService) (cs : ClientState)
    (buf : List Nat) (n : Nat) (hemp : buf.isEmpty = false)
    (hk : (DirConMessage.parse gatt buf cs.lastSequenceNumber).2 = 0) :
    processBuffer env gatt cs buf (n + 1) = ⟨gatt, cs, [], [], [], buf⟩ := by
  simp [processBuffer, hemp, hk]

theorem processBuffer_skip (env : FtmsEnv) (gatt : List GattService) (cs : ClientState)
    (buf : List Nat) (n : Nat) (hemp : buf.isEmpty = false)
    (hk : (DirConMessage.parse gatt buf cs.lastSequenceNumber).2 ≠ 0)
    (herr : (DirConMessage.parse gatt buf cs.lastSequenceNumber).1.Identifier =
      DIRCON_MSGID_ERROR) :
    processBuffer env gatt cs buf (n + 1) =
      processBuffer env gatt cs
        (buf.drop (DirConMessage.parse gatt buf cs.lastSequenceNumber).2) n := by
  simp [processBuffer, hemp, hk, herr]

theorem processBuffer_dispatch (env : FtmsEnv) (gatt : List GattService) (cs : ClientState)
    (buf : List Nat) (n : Nat) (hemp : buf.isEmpty = false)
    (hk : (DirConMessage.parse gatt buf cs.lastSequenceNumber).2 ≠ 0)
    (herr : (DirConMessage.parse gatt buf cs.lastSequenceNumber).1.Identifier ≠
      DIRCON_MSGID_ERROR) :
    processBuffer env gatt cs buf (n + 1) =
      (let m := (DirConMessage.parse gatt buf cs.lastSequenceNumber).1
       let d := processDirConMessage env gatt
         { cs with lastSequenceNumber := m.SequenceNumber } m
       let rest := processBuffer env d.gatt d.client
         (buf.drop (DirConMessage.parse gatt buf cs.lastSequenceNumber).2) n
       ⟨rest.gatt, rest.client,
        (if m.Request then [m] else []) ++ rest.requests,
        d.outputs ++ rest.outputs, d.broadcasts ++ rest.broadcasts, rest.leftover⟩) := by
  simp [processBuffer, hemp, hk, herr]

/-- C7: over any receive buffer, the session loop emits exactly one response
per dispatched request, in the order the requests were received, and the i-th
response's sequence byte (offset 2) equals the i-th request's sequence byte. -/
theorem c7_sequence_echo (env : FtmsEnv) (fuel : Nat) (gatt : List GattService) (cs : ClientState)
    (buf : List Nat) :
    (processBuffer env gatt cs buf fuel).outputs.length =
      (processBuffer env gatt cs buf fuel).requests.length ∧
    ∀ i, i < (processBuffer env gatt cs buf fuel).outputs.length →
      ((processBuffer env gatt cs buf fuel).outputs.getD i []).getD 2 0 =
        ((processBuffer env gatt cs buf fuel).requests.getD i
          ({ Identifier := 0 } : DirConMessage)).SequenceNumber := by
  induction fuel generalizing gatt cs buf with
  | zero =>
    exact ⟨rfl, by intro i hi; simp [processBuffer] at hi⟩
  | succ n ih =>
    by_cases hemp : buf.isEmpty = true
    · constructor
      · simp [processBuffer, hemp]
      · intro i hi
        simp [processBuffer, hemp] at hi
    · rw [Bool.not_eq_true] at hemp
      by_cases hk : (DirConMessage.parse gatt buf cs.lastSequenceNumber).2 = 0
      · rw [processBuffer_stop env gatt cs buf n hemp hk]
        exact ⟨rfl, by intro i hi; simp at hi⟩
      · by_cases herr : (DirConMessage.parse gatt buf cs.lastSequenceNumber).1.Identifier =
          DIRCON_MSGID_ERROR
        · rw [processBuffer_skip env gatt cs buf n hemp hk herr]
          exact ih gatt cs _
        · rw [processBuffer_dispatch env gatt cs buf n hemp hk herr]
          dsimp only
          by_cases hreq : (DirConMessage.parse gatt buf cs.lastSequenceNumber).1.Request = true
          · obtain ⟨out, hout, hseq⟩ := processDirConMessage_request_output env gatt
              { cs with lastSequenceNumber :=
                  (DirConMessage.parse gatt buf cs.lastSequenceNumber).1.SequenceNumber }
              (DirConMessage.parse gatt buf cs.lastSequenceNumber).1 hreq
              (parse_request_identifier gatt buf cs.lastSequenceNumber _ _ rfl hreq)
            obtain ⟨ih1, ih2⟩ := ih
              (processDirConMessage env gatt
                { cs with lastSequenceNumber :=
                    (DirConMessage.parse gatt buf cs.lastSequenceNumber).1.SequenceNumber }
                (DirConMessage.parse gatt buf cs.lastSequenceNumber).1).gatt
              (processDirConMessage env gatt
                { cs with lastSequenceNumber :=
                    (DirConMessage.parse gatt buf cs.lastSequenceNumber).1.SequenceNumber }
                (DirConMessage.parse gatt buf cs.lastSequenceNumber).1).client
              (buf.drop (DirConMessage.parse gatt buf cs.lastSequenceNumber).2)
            constructor
            · simp only [hout, hreq, if_true, List.cons_append, List.nil_append,
                List.length_cons, List.length_append]
              omega
            · intro i hi
              simp only [hout, hreq, if_true, List.cons_append, List.nil_append] at hi ⊢
              cases i with
              | zero =>
                simpa using hseq
              | succ j =>
                simp only [List.getD_cons_succ]
                apply ih2
                simp only [List.length_cons] at hi
                omega
          · rw [Bool.not_eq_true] at hreq
            rw [processDirConMessage_not_request env gatt _ _ hreq]
            obtain ⟨ih1, ih2⟩ := ih gatt
              { cs with lastSequenceNumber :=
                  (DirConMessage.parse gatt buf cs.lastSequenceNumber).1.SequenceNumber }
              (buf.drop (DirConMessage.parse gatt buf cs.lastSequenceNumber).2)
            constructor
            · simpa [hreq] using ih1
            · intro i hi
              simp only [hreq, Bool.false_eq_true, if_false, List.nil_append] at hi ⊢
              exact ih2 i (by simpa using hi)

/-- Witness for C7 at a buffer holding one discover-services request with
sequence byte 3. -/
theorem c7_sequence_echo_witness :
    0 < (processBuffer {} [] {} [1, 1, 3, 0, 0, 0] 6).outputs.length ∧
    ((processBuffer {} [] {} [1, 1, 3, 0, 0, 0] 6).outputs.getD 0 []).getD 2 0 =
      ((processBuffer {} [] {} [1, 1, 3, 0, 0, 0] 6).requests.getD 0
        ({ Identifier := 0 } : DirConMessage)).SequenceNumber :=
  ⟨by decide, (c7_sequence_echo {} 6 [] {} [1, 1, 3, 0, 0, 0]).2 0 (by decide)⟩

/-- C8 (amended): for an ENABLE_NOTIFICATIONS request on an existing
characteristic, the reply carries OPERATION_NOT_SUPPORTED (0x05) if and only
if the characteristic lacks the NOTIFY property — INDICATE is never
consulted; when NOTIFY is present the reply is the success UUID echo. -/
theorem c8_amended_notify_only (env : FtmsEnv) (gatt : List GattService) (cs : ClientState)
    (m : DirConMessage) (c : GattChar) (h1 : m.Request = true)
    (h2 : m.Identifier = DIRCON_MSGID_ENABLE_CHARACTERISTIC_NOTIFICATIONS)
    (h3 : findCharacteristic gatt m.UUID = some c) :
    (((processDirConMessage env gatt cs m).outputs.getD 0 []).getD 3 0 =
        DIRCON_RESPCODE_CHARACTERISTIC_OPERATION_NOT_SUPPORTED ↔
      c.props &&& NIMBLE_PROPERTY_NOTIFY = 0) ∧
    (c.props &&& NIMBLE_PROPERTY_NOTIFY ≠ 0 →
      (processDirConMessage env gatt cs m).outputs =
        [[1, DIRCON_MSGID_ENABLE_CHARACTERISTIC_NOTIFICATIONS, cs.lastSequenceNumber, 0, 0, 16]
          ++ uuidToBytes m.UUID]) := by
  simp only [processDirConMessage, h1, h2, Bool.not_true, Bool.false_eq_true, if_false,
    beq_self_eq_true, Nat.reduceBEq, if_true, DIRCON_MSGID_DISCOVER_SERVICES,
    DIRCON_MSGID_DISCOVER_CHARACTERISTICS, DIRCON_MSGID_READ_CHARACTERISTIC,
    DIRCON_MSGID_WRITE_CHARACTERISTIC, DIRCON_MSGID_ENABLE_CHARACTERISTIC_NOTIFICATIONS, h3]
  by_cases hn : c.props &&& NIMBLE_PROPERTY_NOTIFY = 0
  · have hnb : (c.props &&& NIMBLE_PROPERTY_NOTIFY == 0) = true := by
      simp [hn]
    simp only [hnb, if_true, NIMBLE_PROPERTY_NOTIFY] at hn ⊢
    constructor
    · simp [sendErrorResponse, sendResponse, DirConMessage.encode,
        DIRCON_RESPCODE_CHARACTERISTIC_OPERATION_NOT_SUPPORTED, List.getD, hn,
        DIRCON_MSGID_ERROR, DIRCON_MSGID_DISCOVER_SERVICES, DIRCON_MSGID_DISCOVER_CHARACTERISTICS,
        DIRCON_MSGID_READ_CHARACTERISTIC, DIRCON_MSGID_WRITE_CHARACTERISTIC,
        DIRCON_MSGID_ENABLE_CHARACTERISTIC_NOTIFICATIONS,
        DIRCON_MSGID_UNSOLICITED_CHARACTERISTIC_NOTIFICATION,
        DIRCON_RESPCODE_SUCCESS_REQUEST, u16hi, u16lo]
    · intro hcontra
      exact absurd hn hcontra
  · have hnb : (c.props &&& NIMBLE_PROPERTY_NOTIFY == 0) = false := by
      simp [hn]
    simp only [hnb, Bool.false_eq_true, if_false, NIMBLE_PROPERTY_NOTIFY] at hn ⊢
    constructor
    · simp [sendResponse, DirConMessage.encode, u16hi, u16lo,
        DIRCON_RESPCODE_CHARACTERISTIC_OPERATION_NOT_SUPPORTED, List.getD, hn,
        DIRCON_MSGID_ERROR, DIRCON_MSGID_DISCOVER_SERVICES, DIRCON_MSGID_DISCOVER_CHARACTERISTICS,
        DIRCON_MSGID_READ_CHARACTERISTIC, DIRCON_MSGID_WRITE_CHARACTERISTIC,
        DIRCON_MSGID_ENABLE_CHARACTERISTIC_NOTIFICATIONS,
        DIRCON_MSGID_UNSOLICITED_CHARACTERISTIC_NOTIFICATION,
        DIRCON_RESPCODE_SUCCESS_REQUEST]
    · intro _
      simp [sendResponse, DirConMessage.encode, u16hi, u16lo, hn,
        DIRCON_MSGID_ERROR, DIRCON_MSGID_DISCOVER_SERVICES, DIRCON_MSGID_DISCOVER_CHARACTERISTICS,
        DIRCON_MSGID_READ_CHARACTERISTIC, DIRCON_MSGID_WRITE_CHARACTERISTIC,
        DIRCON_MSGID_ENABLE_CHARACTERISTIC_NOTIFICATIONS,
        DIRCON_MSGID_UNSOLICITED_CHARACTERISTIC_NOTIFICATION,
        DIRCON_RESPCODE_SUCCESS_REQUEST]

/-- Witness for C8 (amended): the hypothetical WRITE | INDICATE characteristic
(no NOTIFY) under an enable-notifications request. -/
theorem c8_amended_notify_only_witness :
    ((((processDirConMessage {} indicateOnlyGatt {} enableIndicateOnlyMessage).outputs.getD
          0 []).getD 3 0 =
        DIRCON_RESPCODE_CHARACTERISTIC_OPERATION_NOT_SUPPORTED ↔
      indicateOnlyChar.props &&& NIMBLE_PROPERTY_NOTIFY = 0) ∧
     (indicateOnlyChar.props &&& NIMBLE_PROPERTY_NOTIFY ≠ 0 →
      (processDirConMessage {} indicateOnlyGatt {} enableIndicateOnlyMessage).outputs =
        [[1, DIRCON_MSGID_ENABLE_CHARACTERISTIC_NOTIFICATIONS,
          ({} : ClientState).lastSequenceNumber, 0, 0, 16] ++
          uuidToBytes enableIndicateOnlyMessage.UUID])) :=
  c8_amended_notify_only {} indicateOnlyGatt {} enableIndicateOnlyMessage indicateOnlyChar
    rfl rfl (by decide)
